import Mathlib

/-!
Verification of the ONIX book-import service.

The development shallowly embeds the ONIX XML parser
(`src/server/services/onixParser.ts`) and the book-import service
(`src/server/services/bookImport.ts`).  XML trees as produced by `xml2js`
(with `explicitArray: false`, `mergeAttrs: true`) are modelled by the
inductive type `Xml`; JavaScript `undefined`/`null` is modelled by
`Option Xml`, and JavaScript truthiness (`""` is falsy, objects and
arrays are truthy) by `truthy`.  The database is modelled by an explicit
`DbState`; exceptions raised by database calls or by the file rename are
modelled by boolean oracles (`BookBehavior`, `RunBehavior`).
-/

/-- An `xml2js` value: a string, an array, or an object (an ordered list of
key/value fields, unique keys by construction of `xml2js` output). -/
inductive Xml where
  | str (s : String)
  | arr (elems : List Xml)
  | obj (fields : List (String × Xml))

/-- JavaScript truthiness of a defined value: the empty string is falsy,
arrays and objects are always truthy. -/
def truthy : Xml → Bool
  | .str s => s ≠ ""
  | .arr _ => true
  | .obj _ => true

/-- JavaScript truthiness of a possibly-`undefined` value. -/
def truthyO : Option Xml → Bool
  | none => false
  | some v => truthy v

/-- JavaScript `a || b` on possibly-`undefined` values. -/
def jsOr (a b : Option Xml) : Option Xml :=
  match a with
  | some v => if truthy v then some v else b
  | none => b

/-- Property read on a field list: JavaScript `obj[key]`. -/
def getFld : List (String × Xml) → String → Option Xml
  | [], _ => none
  | (k, v) :: rest, key => if k = key then some v else getFld rest key

/-- Property read `x.key`: `undefined` on strings and arrays. -/
def getKey (x : Xml) (key : String) : Option Xml :=
  match x with
  | .obj fs => getFld fs key
  | _ => none

/-- Optional-chaining property read `x?.key`. -/
def getO (x : Option Xml) (key : String) : Option Xml :=
  match x with
  | some v => getKey v key
  | none => none

/-- JavaScript `a || b` on possibly-`undefined` strings (`""` is falsy). -/
def jsStrOr (a b : Option String) : Option String :=
  match a with
  | some s => if s = "" then b else some s
  | none => b

/-- Truthiness of a possibly-`undefined` string. -/
def truthyS : Option String → Bool
  | none => false
  | some s => s ≠ ""

/-- JavaScript `s.trim()`: strip whitespace from both ends.  (Defined by
structural recursion over the character list so that it evaluates inside
the kernel.) -/
def jsTrim (s : String) : String :=
  String.mk (((s.toList.dropWhile Char.isWhitespace).reverse.dropWhile Char.isWhitespace).reverse)

/-- ASCII lowercasing of one character, as JavaScript `toLowerCase` acts
on the tag names occurring here. -/
def jsCharLower (c : Char) : Char :=
  if 'A' ≤ c ∧ c ≤ 'Z' then Char.ofNat (c.toNat + 32) else c

/-- JavaScript `s.toLowerCase()` on ASCII strings. -/
def jsToLower (s : String) : String := String.mk (s.toList.map jsCharLower)

/-- JavaScript `s.split(c)` for a one-character separator. -/
def splitChGo (c : Char) : List Char → List Char → List (List Char)
  | buf, [] => [buf.reverse]
  | buf, x :: xs => if x = c then buf.reverse :: splitChGo c [] xs else splitChGo c (x :: buf) xs

/-- JavaScript `s.split(';')` and friends. -/
def splitCh (c : Char) (s : String) : List String :=
  (splitChGo c [] s.toList).map String.mk

/-- The ONIX 3.0 short-tag to reference-tag mapping `ONIX_TAG_MAP`. -/
def ONIX_TAG_MAP : List (String × String) :=
  [("a001", "RecordReference"),
   ("a002", "NotificationType"),
   ("a197", "RecordSourceName"),
   ("b221", "ProductIDType"),
   ("b244", "IDValue"),
   ("b202", "TitleType"),
   ("b203", "TitleWithoutPrefix"),
   ("b030", "TitlePrefix"),
   ("b031", "TitleWithoutPrefix"),
   ("x409", "TitleElementLevel"),
   ("b034", "SequenceNumber"),
   ("b035", "ContributorRole"),
   ("b036", "PersonName"),
   ("b037", "PersonNameInverted"),
   ("b039", "NamesBeforeKey"),
   ("b040", "KeyNames"),
   ("b012", "ProductForm"),
   ("b333", "ProductFormDetail"),
   ("x314", "ProductComposition"),
   ("x426", "TextType"),
   ("x427", "ContentAudience"),
   ("d104", "Text"),
   ("b079", "ImprintName"),
   ("b081", "PublisherName"),
   ("b083", "CountryOfPublication"),
   ("b394", "PublishingStatus"),
   ("x448", "PublishingDateRole"),
   ("b306", "Date"),
   ("x462", "PriceType"),
   ("j151", "PriceAmount"),
   ("j152", "CurrencyCode"),
   ("b067", "SubjectSchemeIdentifier"),
   ("b068", "SubjectSchemeVersion"),
   ("b069", "SubjectCode"),
   ("b070", "SubjectHeadingText"),
   ("b252", "LanguageCode"),
   ("b253", "LanguageRole"),
   ("b218", "ExtentType"),
   ("b219", "ExtentValue"),
   ("b220", "ExtentUnit")]

/-- Association-list lookup used for `ONIX_TAG_MAP`. -/
def tagLookup : List (String × String) → String → Option String
  | [], _ => none
  | (k, v) :: rest, key => if k = key then some v else tagLookup rest key

/-- Key translation of `normalizeXmlObject`: the key is lowercased and
replaced by its reference tag when the mapping exists, else unchanged. -/
def mapTag (k : String) : String :=
  match tagLookup ONIX_TAG_MAP (jsToLower k) with
  | some r => r
  | none => k

/-- JavaScript object assignment `o[k] = v`: overwrites the value at the
first occurrence of `k` (keeping its position), else appends. -/
def setKey : List (String × Xml) → String → Xml → List (String × Xml)
  | [], k, v => [(k, v)]
  | (k', v') :: rest, k, v =>
    if k' = k then (k', v) :: rest else (k', v') :: setKey rest k v

mutual

/-- `normalizeXmlObject`: recursively rename short-tag keys to reference
tags; scalars pass through, arrays map element-wise. -/
def normalizeXmlObject : Xml → Xml
  | .str s => .str s
  | .arr l => .arr (normList l)
  | .obj fs => .obj (normFields [] fs)

/-- Element-wise normalization of an array. -/
def normList : List Xml → List Xml
  | [] => []
  | x :: xs => normalizeXmlObject x :: normList xs

/-- The `for (const [key, value] of Object.entries(obj))` loop of
`normalizeXmlObject`, building the result object by assignment. -/
def normFields : List (String × Xml) → List (String × Xml) → List (String × Xml)
  | acc, [] => acc
  | acc, (k, v) :: rest => normFields (setKey acc (mapTag k) (normalizeXmlObject v)) rest

end

mutual

/-- `extractText`: text of an element.  Falsy input (`undefined`, `""`)
gives `undefined`; a string is trimmed; an array delegates to its first
element; an object with a truthy `_` text node trims it, otherwise the
first field's value is used.  (A truthy non-string `_` would raise a
`TypeError` in the source; it is mapped to `undefined` here and is never
produced by `xml2js`.) -/
def extractText : Xml → Option String
  | .str s => if s = "" then none else some (jsTrim s)
  | .arr [] => none
  | .arr (x :: _) => extractText x
  | .obj fs =>
    match getFld fs "_" with
    | some (.str s) => if s = "" then extractTextKeys fs else some (jsTrim s)
    | some (.arr _) => none
    | some (.obj _) => none
    | none => extractTextKeys fs

/-- The `Object.keys` fallback of `extractText`: recurse into the first
field's value, `undefined` for an empty object. -/
def extractTextKeys : List (String × Xml) → Option String
  | [] => none
  | (_, v) :: _ => extractText v

end

/-- `extractText` applied to a possibly-`undefined` element. -/
def extractTextO : Option Xml → Option String
  | none => none
  | some x => extractText x

/-- Result record of `extractISBN`. -/
structure ISBNResult where
  isbn13 : Option String := none
  isbn10 : Option String := none
deriving Repr, DecidableEq

/-- Body of the `for (const identifier of productIdentifiers)` loop of
`extractISBN`: a truthy `IDValue` with type code `03`/`15` overwrites
`isbn13`, with type code `02` overwrites `isbn10`; a falsy `IDValue`
skips the node (`continue`). -/
def isbnStep (r : ISBNResult) (identifier : Xml) : ISBNResult :=
  let idType := extractTextO (jsOr (getKey identifier "ProductIDType") (getKey identifier "b221"))
  let idValue := extractTextO (jsOr (getKey identifier "IDValue") (getKey identifier "b244"))
  match idValue with
  | none => r
  | some v =>
    if v = "" then r
    else if idType = some "03" ∨ idType = some "15" then { r with isbn13 := some v }
    else if idType = some "02" then { r with isbn10 := some v }
    else r

/-- `extractISBN`: a non-array argument is wrapped into a singleton list,
then the identifier loop runs. -/
def extractISBN (productIdentifiers : Xml) : ISBNResult :=
  let l := match productIdentifiers with
    | .arr l => l
    | x => [x]
  l.foldl isbnStep {}

/-- Result record of `extractTitle`. -/
structure TitleResult where
  title : Option String := none
  subtitle : Option String := none
deriving Repr, DecidableEq

/-- `extractTitle`: first title element of the first title detail;
`TitleWithoutPrefix` (or `b203`/`b031`) prefixed by a truthy
`TitlePrefix`; `title` is `undefined` when the result is empty. -/
def extractTitle (titleDetail : Option Xml) : TitleResult :=
  if ¬ truthyO titleDetail then {}
  else
    let titleElement := match titleDetail with | some (.arr l) => l.head? | x => x
    let titleElements := jsOr (getO titleElement "TitleElement") (getO titleElement "titleelement")
    if ¬ truthyO titleElements then {}
    else
      let mainTitle := match titleElements with | some (.arr l) => l.head? | x => x
      let pfx := extractTextO (jsOr (getO mainTitle "TitlePrefix") (getO mainTitle "b030"))
      let twp := extractTextO (jsOr (jsOr (getO mainTitle "TitleWithoutPrefix") (getO mainTitle "b203")) (getO mainTitle "b031"))
      let sub := extractTextO (jsOr (getO mainTitle "Subtitle") (getO mainTitle "b029"))
      let t0 := match twp with | some s => s | none => ""
      let t1 := match pfx with | some p => if p = "" then t0 else p ++ " " ++ t0 | none => t0
      { title := if t1 = "" then none else some t1, subtitle := sub }

/-- Result record of `extractContributors`. -/
structure ContribResult where
  author : Option String := none
  contributors : Option (List String) := none
deriving Repr, DecidableEq

/-- Accumulator of the contributor loop. -/
structure ContribAcc where
  all : List String := []
  primary : Option String := none
deriving Repr, DecidableEq

/-- Body of the contributor loop: every truthy `PersonName` is collected;
the first one whose `ContributorRole` is `A01` becomes the primary
author. -/
def contribStep (acc : ContribAcc) (contributor : Xml) : ContribAcc :=
  let role := extractTextO (jsOr (getKey contributor "ContributorRole") (getKey contributor "b035"))
  let name := extractTextO (jsOr (getKey contributor "PersonName") (getKey contributor "b036"))
  match name with
  | some n =>
    if n = "" then acc
    else { all := acc.all ++ [n],
           primary := if role = some "A01" ∧ acc.primary = none then some n else acc.primary }
  | none => acc

/-- `extractContributors`. -/
def extractContributors (contributors : Option Xml) : ContribResult :=
  if ¬ truthyO contributors then {}
  else
    let l := match contributors with | some (.arr l) => l | some x => [x] | none => []
    let acc := l.foldl contribStep {}
    { author := acc.primary, contributors := if acc.all = [] then none else some acc.all }

/-- The regex replace `/<[^>]*>/g → ''`: drops `<`…`>` runs; an unclosed
`<` keeps its buffered characters. -/
def stripTagsGo : Bool → List Char → List Char → List Char
  | false, _, [] => []
  | false, buf, c :: rest =>
    if c = '<' then stripTagsGo true [c] rest else c :: stripTagsGo false buf rest
  | true, buf, [] => buf.reverse
  | true, buf, c :: rest =>
    if c = '>' then stripTagsGo false [] rest else stripTagsGo true (c :: buf) rest

/-- HTML-tag removal used on descriptions. -/
def stripTags (s : String) : String := String.mk (stripTagsGo false [] s.toList)

/-- The regex replace `/\s+/g → ' '`: collapse whitespace runs to one
space. -/
def collapseWsGo : Bool → List Char → List Char
  | _, [] => []
  | prevWs, c :: rest =>
    if c.isWhitespace then
      if prevWs then collapseWsGo true rest else ' ' :: collapseWsGo true rest
    else c :: collapseWsGo false rest

/-- Whitespace collapsing used on descriptions. -/
def collapseWs (s : String) : String := String.mk (collapseWsGo false s.toList)

/-- `text.replace(/<[^>]*>/g, '').replace(/\s+/g, ' ').trim()`. -/
def cleanDescription (s : String) : String := jsTrim (collapseWs (stripTags s))

/-- The text-content loop of `extractDescription`: the first entry with
`TextType` `03` or `02` and truthy text yields its cleaned text. -/
def descLoop : List Xml → Option String
  | [] => none
  | content :: rest =>
    let textType := extractTextO (jsOr (getKey content "TextType") (getKey content "x426"))
    if textType = some "03" ∨ textType = some "02" then
      match extractTextO (jsOr (getKey content "Text") (getKey content "d104")) with
      | some t => if t = "" then descLoop rest else some (cleanDescription t)
      | none => descLoop rest
    else descLoop rest

/-- `extractDescription`. -/
def extractDescription (collateralDetail : Option Xml) : Option String :=
  if ¬ truthyO collateralDetail then none
  else
    let textContent := jsOr (getO collateralDetail "TextContent") (getO collateralDetail "textcontent")
    if ¬ truthyO textContent then none
    else
      let l := match textContent with | some (.arr l) => l | some x => [x] | none => []
      descLoop l

/-- The resource loop of `extractCoverImage`: the first front-cover
resource (`ResourceContentType` `01`) with a truthy link wins. -/
def coverLoop : List Xml → Option String
  | [] => none
  | resource :: rest =>
    let resourceType := extractTextO (jsOr (getKey resource "ResourceContentType") (getKey resource "x436"))
    if resourceType = some "01" then
      let resourceVersion := jsOr (getKey resource "ResourceVersion") (getKey resource "resourceversion")
      if truthyO resourceVersion then
        let version := match resourceVersion with | some (.arr l) => l.head? | x => x
        match extractTextO (jsOr (getO version "ResourceLink") (getO version "x435")) with
        | some link => if link = "" then coverLoop rest else some link
        | none => coverLoop rest
      else coverLoop rest
    else coverLoop rest

/-- `extractCoverImage`. -/
def extractCoverImage (collateralDetail : Option Xml) : Option String :=
  if ¬ truthyO collateralDetail then none
  else
    let supportingResource := jsOr (getO collateralDetail "SupportingResource") (getO collateralDetail "supportingresource")
    if ¬ truthyO supportingResource then none
    else
      let l := match supportingResource with | some (.arr l) => l | some x => [x] | none => []
      coverLoop l

/-- Result record of `extractPublishingInfo`. -/
structure PubInfoResult where
  publisher : Option String := none
  imprint : Option String := none
  publicationDate : Option String := none
deriving Repr, DecidableEq

/-- `extractPublishingInfo`: note the fallbacks `publisher?.b081` and
`imprint?.b079` read the short tags through the already-normalized tree. -/
def extractPublishingInfo (publishingDetail : Option Xml) : PubInfoResult :=
  if ¬ truthyO publishingDetail then {}
  else
    let publisher := extractTextO (jsOr
      (getO (getO publishingDetail "Publisher") "PublisherName")
      (getO (getO publishingDetail "publisher") "b081"))
    let imprint := extractTextO (jsOr
      (getO (getO publishingDetail "Imprint") "ImprintName")
      (getO (getO publishingDetail "imprint") "b079"))
    let publishingDate := jsOr (getO publishingDetail "PublishingDate") (getO publishingDetail "publishingdate")
    let publicationDate :=
      if truthyO publishingDate then
        let dateElement := match publishingDate with | some (.arr l) => l.head? | x => x
        let dateRole := extractTextO (jsOr (getO dateElement "PublishingDateRole") (getO dateElement "x448"))
        if dateRole = some "01" then
          extractTextO (jsOr (getO dateElement "Date") (getO dateElement "b306"))
        else none
      else none
    { publisher, imprint, publicationDate }

/-- Result record of `extractPrice`. -/
structure PriceResult where
  price : Option String := none
  currency : Option String := none
deriving Repr, DecidableEq

/-- `extractPrice`: first supply detail, first price element. -/
def extractPrice (productSupply : Option Xml) : PriceResult :=
  if ¬ truthyO productSupply then {}
  else
    let supplyDetail := jsOr (getO productSupply "SupplyDetail") (getO productSupply "supplydetail")
    if ¬ truthyO supplyDetail then {}
    else
      let detail := match supplyDetail with | some (.arr l) => l.head? | x => x
      let priceElement := jsOr (getO detail "Price") (getO detail "price")
      if ¬ truthyO priceElement then {}
      else
        let price := match priceElement with | some (.arr l) => l.head? | x => x
        { price := extractTextO (jsOr (getO price "PriceAmount") (getO price "j151")),
          currency := extractTextO (jsOr (getO price "CurrencyCode") (getO price "j152")) }

/-- Result record of `extractSubjects`. -/
structure SubjectsResult where
  genre : Option String := none
  subjects : Option (List String) := none
  keywords : Option (List String) := none
deriving Repr, DecidableEq

/-- Accumulator of the subject loop. -/
structure SubjAcc where
  subjectTexts : List String := []
  keywordTexts : List String := []
  mainGenre : Option String := none
deriving Repr, DecidableEq

/-- `subjectText.split(';').map(k => k.trim())`. -/
def splitKeywords (t : String) : List String := (splitCh ';' t).map jsTrim

/-- Body of the subject loop: scheme `20` subjects feed `keywords`; any
other subject with truthy heading text feeds `subjectTexts`, and the
first such subject with scheme `12` or `10` becomes `mainGenre`.  The
source also extracts `SubjectCode` but never uses it. -/
def subjStep (acc : SubjAcc) (subject : Xml) : SubjAcc :=
  let schemeId := extractTextO (jsOr (getKey subject "SubjectSchemeIdentifier") (getKey subject "b067"))
  let subjectText := extractTextO (jsOr (getKey subject "SubjectHeadingText") (getKey subject "b070"))
  match subjectText with
  | some t =>
    if schemeId = some "20" ∧ t ≠ "" then
      { acc with keywordTexts := acc.keywordTexts ++ splitKeywords t }
    else if t ≠ "" then
      { acc with
        subjectTexts := acc.subjectTexts ++ [t],
        mainGenre :=
          if acc.mainGenre = none ∧ (schemeId = some "12" ∨ schemeId = some "10")
          then some t else acc.mainGenre }
    else acc
  | none => acc

/-- `extractSubjects`. -/
def extractSubjects (descriptiveDetail : Option Xml) : SubjectsResult :=
  if ¬ truthyO descriptiveDetail then {}
  else
    let subjectElements := jsOr (getO descriptiveDetail "Subject") (getO descriptiveDetail "subject")
    if ¬ truthyO subjectElements then {}
    else
      let l := match subjectElements with | some (.arr l) => l | some x => [x] | none => []
      let acc := l.foldl subjStep {}
      { genre := acc.mainGenre,
        subjects := if acc.subjectTexts = [] then none else some acc.subjectTexts,
        keywords := if acc.keywordTexts = [] then none else some acc.keywordTexts }

/-- A JavaScript number that is either an integer or `NaN` (the value
`parseInt` yields on unparsable input). -/
inductive JsNum where
  | nan
  | num (n : Int)
deriving Repr, DecidableEq

/-- Decimal value of a digit list. -/
def digitsVal : List Char → Nat → Nat
  | [], acc => acc
  | c :: rest, acc => digitsVal rest (acc * 10 + (c.toNat - '0'.toNat))

/-- `parseInt(s, 10)`: skip leading whitespace, optional sign, longest
digit run; `NaN` when no digits. -/
def jsParseInt (s : String) : JsNum :=
  let cs := s.toList.dropWhile Char.isWhitespace
  match cs with
  | '-' :: rest =>
    let ds := rest.takeWhile Char.isDigit
    if ds = [] then .nan else .num (-(digitsVal ds 0 : Int))
  | '+' :: rest =>
    let ds := rest.takeWhile Char.isDigit
    if ds = [] then .nan else .num (digitsVal ds 0 : Int)
  | _ =>
    let ds := cs.takeWhile Char.isDigit
    if ds = [] then .nan else .num (digitsVal ds 0 : Int)

/-- `extractPageCount`: only the FIRST extent node is inspected; its
value is parsed when its type code is `00` or `10`. -/
def extractPageCount (descriptiveDetail : Option Xml) : Option JsNum :=
  if ¬ truthyO descriptiveDetail then none
  else
    let extent := jsOr (getO descriptiveDetail "Extent") (getO descriptiveDetail "extent")
    if ¬ truthyO extent then none
    else
      let extentElement := match extent with | some (.arr l) => l.head? | x => x
      let extentType := extractTextO (jsOr (getO extentElement "ExtentType") (getO extentElement "b218"))
      if extentType = some "00" ∨ extentType = some "10" then
        match extractTextO (jsOr (getO extentElement "ExtentValue") (getO extentElement "b219")) with
        | some v => if v = "" then none else some (jsParseInt v)
        | none => none
      else none

/-- The `ParsedBook` interface.  `language` is declared but never set by
`parseProduct`. -/
structure ParsedBook where
  recordReference : Option String := none
  isbn13 : Option String := none
  isbn10 : Option String := none
  title : Option String := none
  subtitle : Option String := none
  author : Option String := none
  contributors : Option (List String) := none
  description : Option String := none
  publisher : Option String := none
  imprint : Option String := none
  publicationDate : Option String := none
  price : Option String := none
  currency : Option String := none
  genre : Option String := none
  subjects : Option (List String) := none
  keywords : Option (List String) := none
  language : Option String := none
  pageCount : Option JsNum := none
  productForm : Option String := none
  coverImageUrl : Option String := none
deriving Repr, DecidableEq

/-- `parseProduct`: normalize, then run all extractors. -/
def parseProduct (product : Xml) : ParsedBook :=
  let normalized := normalizeXmlObject product
  let recordReference := extractTextO (getKey normalized "RecordReference")
  let pid := jsOr (jsOr (getKey normalized "ProductIdentifier") (getKey normalized "productidentifier")) (some (.arr []))
  let isbns := extractISBN (pid.getD (.arr []))
  let titles := extractTitle (jsOr
    (getO (getKey normalized "DescriptiveDetail") "TitleDetail")
    (getO (getKey normalized "descriptivedetail") "titledetail"))
  let contribs := extractContributors (jsOr
    (getO (getKey normalized "DescriptiveDetail") "Contributor")
    (getO (getKey normalized "descriptivedetail") "contributor"))
  let collateral := jsOr (getKey normalized "CollateralDetail") (getKey normalized "collateraldetail")
  let description := extractDescription collateral
  let coverImageUrl := extractCoverImage collateral
  let pubInfo := extractPublishingInfo (jsOr (getKey normalized "PublishingDetail") (getKey normalized "publishingdetail"))
  let priceInfo := extractPrice (jsOr (getKey normalized "ProductSupply") (getKey normalized "productsupply"))
  let dd := jsOr (getKey normalized "DescriptiveDetail") (getKey normalized "descriptivedetail")
  let subj := extractSubjects dd
  let pageCount := extractPageCount dd
  let productForm := extractTextO (jsOr
    (getO (getKey normalized "DescriptiveDetail") "ProductForm")
    (getO (getKey normalized "descriptivedetail") "b012"))
  { recordReference,
    isbn13 := isbns.isbn13, isbn10 := isbns.isbn10,
    title := titles.title, subtitle := titles.subtitle,
    author := contribs.author, contributors := contribs.contributors,
    description,
    publisher := pubInfo.publisher, imprint := pubInfo.imprint,
    publicationDate := pubInfo.publicationDate,
    price := match priceInfo.price, priceInfo.currency with
      | some p, some c => if p ≠ "" ∧ c ≠ "" then some (p ++ " " ++ c) else some p
      | p, _ => p,
    currency := priceInfo.currency,
    genre := subj.genre, subjects := subj.subjects, keywords := subj.keywords,
    language := none,
    pageCount, productForm, coverImageUrl }

/-- Character-list prefix test. -/
def hasPfx : List Char → List Char → Bool
  | [], _ => true
  | _ :: _, [] => false
  | p :: ps, c :: cs => p = c && hasPfx ps cs

/-- Character-list substring test. -/
def hasSub (p : List Char) : List Char → Bool
  | [] => hasPfx p []
  | c :: cs => hasPfx p (c :: cs) || hasSub p cs

/-- JavaScript `s.includes(pat)`. -/
def strIncludes (s pat : String) : Bool := hasSub pat.toList s.toList

/-- `detectOnixSource`: publisher guessed from the lowercased filename. -/
def detectOnixSource (filename : String) : String :=
  if strIncludes (jsToLower filename) "aponix" then "APONIX"
  else if strIncludes (jsToLower filename) "penguin" then "Penguin Random House"
  else "Unknown"

/-- A row of the `books` table, with the columns `importBook` touches.
Timestamps are abstracted to the flag `updatedAt`; the JSON-stringified
`keywords` column is represented by the list itself. -/
structure BookRow where
  id : Nat
  title : String
  author : String
  description : Option String := none
  isbn : Option String := none
  publicationDate : Option String := none
  keywords : Option (List String) := none
  price : Option String := none
  genre : Option String := none
  coverImageUrl : Option String := none
  status : String := "active"
  externalId : Option String := none
  createdBy : String := "import"
  isSample : String := "false"
  updatedAt : Bool := false
deriving Repr, DecidableEq

/-- A row of the `import_logs` table.  Timestamps are abstracted to
booleans; counters that have not been written are `none`. -/
structure ImportLogRow where
  id : Nat
  filename : String
  filepath : String
  status : String
  importSource : String
  startedAt : Bool := true
  totalBooks : Option Nat := none
  importedBooks : Option Nat := none
  skippedBooks : Option Nat := none
  errorCount : Option Nat := none
  completedAt : Bool := false
deriving Repr, DecidableEq

/-- The JSON `errorDetails` payloads written to `import_errors`:
per-book details (title/author), parse-error details, or system-error
details (the stack traces are not modelled). -/
inductive ErrDetails where
  | bookInfo (book author : Option String)
  | fileInfo (filepath filename : String)
  | sysInfo (filepath filename : String)
deriving Repr, DecidableEq

/-- A row of the `import_errors` table. -/
structure ImportErrorRow where
  importLogId : Nat
  bookIdentifier : Option String := none
  errorType : String
  errorMessage : String
  errorDetails : ErrDetails
deriving Repr, DecidableEq

/-- The database state seen by the import service. -/
structure DbState where
  books : List BookRow := []
  importLogs : List ImportLogRow := []
  importErrors : List ImportErrorRow := []
  nextBookId : Nat := 0
  nextLogId : Nat := 0
deriving Repr, DecidableEq

/-- The `ImportResult` interface returned by `importOnixFile`. -/
structure ImportResult where
  success : Bool
  importLogId : Nat
  totalBooks : Nat
  importedBooks : Nat
  skippedBooks : Nat
  errorCount : Nat
  errors : Option (List String) := none
deriving Repr, DecidableEq

/-- Exception oracle for one record: whether the identity lookup throws,
and whether the persistence call (insert/update) throws. -/
structure BookBehavior where
  lookupThrows : Bool := false
  persistThrows : Bool := false
  persistErrMsg : String := "database error"
deriving Repr, DecidableEq

/-- Exception oracle for one `importOnixFile` run. -/
structure RunBehavior where
  perBook : List BookBehavior := []
  finalLogUpdateThrows : Bool := false
  renameThrows : Bool := false
  failedMoveThrows : Bool := false
  finalLogUpdateErrMsg : String := "log update failed"
  renameErrMsg : String := "rename failed"
deriving Repr, DecidableEq

/-- Where the source file ends up after a run: still in `incoming`
(never renamed), in `processed`, or in `failed`. -/
inductive FileMove where
  | stay
  | toProcessed
  | toFailed
deriving Repr, DecidableEq

/-- `findExistingBook`: all identifiers falsy gives `null`; a thrown
select is caught (logged to the console) and also gives `null`;
otherwise one condition is chosen by truthiness — `isbn = isbn13`, else
`isbn = isbn10`, else `externalId = recordReference` — and the first
matching row (`limit 1`) is returned. -/
def findExistingBook (rows : List BookRow) (lookupThrows : Bool)
    (isbn13 isbn10 recordReference : Option String) : Option BookRow :=
  if ¬ truthyS isbn13 ∧ ¬ truthyS isbn10 ∧ ¬ truthyS recordReference then none
  else if lookupThrows then none
  else
    let condRow : BookRow → Bool :=
      if truthyS isbn13 then (fun r => r.isbn = isbn13)
      else if truthyS isbn10 then (fun r => r.isbn = isbn10)
      else (fun r => r.externalId = recordReference)
    (rows.filter condRow).head?

/-- JavaScript `a || d` for an optional string with a string default. -/
def jsStrD (a : Option String) (d : String) : String :=
  match a with
  | some s => if s = "" then d else s
  | none => d

/-- The columns written for a book (`bookData` in `importBook`). -/
structure BookData where
  title : String
  author : String
  description : Option String
  isbn : Option String
  publicationDate : Option String
  keywords : Option (List String)
  price : Option String
  genre : Option String
  coverImageUrl : Option String
  status : String
  externalId : Option String
  createdBy : String
  isSample : String
deriving Repr, DecidableEq

/-- The `bookData` object of `importBook`. -/
def mkBookData (book : ParsedBook) : BookData :=
  { title := jsStrD book.title "Untitled",
    author := jsStrD book.author "Unknown",
    description := book.description,
    isbn := jsStrOr book.isbn13 book.isbn10,
    publicationDate := book.publicationDate,
    keywords := book.keywords,
    price := book.price,
    genre := book.genre,
    coverImageUrl := book.coverImageUrl,
    status := "active",
    externalId := book.recordReference,
    createdBy := "import",
    isSample := "false" }

/-- `db.insert(books).values(bookData)`: append a fresh row. -/
def insertBook (st : DbState) (d : BookData) : DbState :=
  { st with
    books := st.books ++ [{ id := st.nextBookId
                            title := d.title
                            author := d.author
                            description := d.description
                            isbn := d.isbn
                            publicationDate := d.publicationDate
                            keywords := d.keywords
                            price := d.price
                            genre := d.genre
                            coverImageUrl := d.coverImageUrl
                            status := d.status
                            externalId := d.externalId
                            createdBy := d.createdBy
                            isSample := d.isSample
                            updatedAt := false }]
    nextBookId := st.nextBookId + 1 }

/-- `db.update(books).set({...bookData, updatedAt}).where(eq(books.id, id))`. -/
def updateBook (st : DbState) (bookId : Nat) (d : BookData) : DbState :=
  { st with books := st.books.map (fun r =>
      if r.id = bookId then
        { r with
          title := d.title
          author := d.author
          description := d.description
          isbn := d.isbn
          publicationDate := d.publicationDate
          keywords := d.keywords
          price := d.price
          genre := d.genre
          coverImageUrl := d.coverImageUrl
          status := d.status
          externalId := d.externalId
          createdBy := d.createdBy
          isSample := d.isSample
          updatedAt := true }
      else r) }

/-- Result record of `importBook`. -/
structure ImportBookResult where
  success : Bool
  skipped : Bool
  error : Option String := none
deriving Repr, DecidableEq

/-- `importBook`: look the book up, then update the existing row or
insert a new one — both return `skipped: false`.  A persistence
exception is caught: a `database_error` row carrying the book's
title/author is recorded and the record fails. -/
def importBook (book : ParsedBook) (importLogId : Nat) (bb : BookBehavior)
    (st : DbState) : ImportBookResult × DbState :=
  let existingBook := findExistingBook st.books bb.lookupThrows
    book.isbn13 book.isbn10 book.recordReference
  let bookData := mkBookData book
  if bb.persistThrows then
    ({ success := false, skipped := false, error := some bb.persistErrMsg },
     { st with importErrors := st.importErrors ++ [{
         importLogId,
         bookIdentifier := jsStrOr book.isbn13 (jsStrOr book.isbn10 book.recordReference),
         errorType := "database_error",
         errorMessage := bb.persistErrMsg,
         errorDetails := .bookInfo book.title book.author }] })
  else
    match existingBook with
    | some row => ({ success := true, skipped := false }, updateBook st row.id bookData)
    | none => ({ success := true, skipped := false }, insertBook st bookData)

/-- Mutable locals of the per-book loop of `importOnixFile`, plus the
database. -/
structure LoopState where
  importedCount : Nat := 0
  skippedCount : Nat := 0
  errorCount : Nat := 0
  errors : List String := []
  db : DbState
deriving Repr, DecidableEq

/-- The `for (const book of parsedBooks)` loop of `importOnixFile`. -/
def importLoop (importLogId : Nat) :
    List ParsedBook → List BookBehavior → LoopState → LoopState
  | [], _, s => s
  | book :: rest, behs, s =>
    let step := importBook book importLogId (behs.headD {}) s.db
    let s' :=
      if step.1.success then
        if step.1.skipped then { s with skippedCount := s.skippedCount + 1, db := step.2 }
        else { s with importedCount := s.importedCount + 1, db := step.2 }
      else
        { s with errorCount := s.errorCount + 1,
                 errors := match step.1.error with
                   | some e => s.errors ++ [e]
                   | none => s.errors,
                 db := step.2 }
    importLoop importLogId rest behs.tail s'

/-- The result record of `parseOnixFile` as consumed by
`importOnixFile`. -/
structure ParseOutcome where
  books : List ParsedBook := []
  source : Option String := none
  error : Option String := none
deriving Repr, DecidableEq

/-- `db.update(importLogs).set(f).where(eq(importLogs.id, logId))`. -/
def updateLogRows (st : DbState) (logId : Nat) (f : ImportLogRow → ImportLogRow) : DbState :=
  { st with importLogs := st.importLogs.map (fun l => if l.id = logId then f l else l) }

/-- The log update of the top-level `catch` of `importOnixFile`: it
writes only `status`, `errorCount` and `completedAt`. -/
def systemErrorLogUpdate (l : ImportLogRow) (n : Nat) : ImportLogRow :=
  { l with status := "failed", errorCount := some n, completedAt := true }

/-- What `importOnixFile` produces: the returned `ImportResult`, the
database state, and where the file ended up. -/
structure RunOutput where
  result : ImportResult
  db : DbState
  fileMove : FileMove
deriving Repr, DecidableEq

/-- The top-level `catch` of `importOnixFile`: record a `system_error`
row, run `systemErrorLogUpdate`, try to move the file to `failed`
(swallowing a second failure), and return a failure result with
`totalBooks: 0` but the counters accumulated so far. -/
def systemErrorPath (st : DbState) (importLogId : Nat)
    (filepath filename errorMessage : String)
    (importedCount skippedCount errorCount : Nat) (errors : List String)
    (failedMoveThrows : Bool) : RunOutput :=
  let stErr := { st with importErrors := st.importErrors ++ [{ importLogId
                                                               errorType := "system_error"
                                                               errorMessage
                                                               errorDetails := .sysInfo filepath filename }] }
  let stLog := updateLogRows stErr importLogId
    (fun l => systemErrorLogUpdate l (errorCount + 1))
  { result := { success := false
                importLogId
                totalBooks := 0
                importedBooks := importedCount
                skippedBooks := skippedCount
                errorCount := errorCount + 1
                errors := some (errors ++ [errorMessage]) }
    db := stLog
    fileMove := if failedMoveThrows then .stay else .toFailed }

/-- `importOnixFile`, from the parse outcome on.  The parse-error branch
returns before any rename, so on that path the file stays in
`incoming`. -/
def importOnixFile (parse : ParseOutcome) (filepath filename : String)
    (beh : RunBehavior) (st0 : DbState) : RunOutput :=
  let importLogId := st0.nextLogId
  let st1 : DbState := { st0 with
    importLogs := st0.importLogs ++ [{ id := importLogId
                                       filename
                                       filepath
                                       status := "processing"
                                       importSource := detectOnixSource filename }]
    nextLogId := st0.nextLogId + 1 }
  if truthyS parse.error then
    let parseError := parse.error.getD ""
    let st2 := { st1 with importErrors := st1.importErrors ++ [{ importLogId
                                                                 errorType := "parse_error"
                                                                 errorMessage := parseError
                                                                 errorDetails := .fileInfo filepath filename }] }
    let st3 := updateLogRows st2 importLogId (fun l =>
      { l with status := "failed", errorCount := some 1, completedAt := true })
    { result := { success := false
                  importLogId
                  totalBooks := 0
                  importedBooks := 0
                  skippedBooks := 0
                  errorCount := 1
                  errors := some [parseError] }
      db := st3
      fileMove := .stay }
  else
    let s := importLoop importLogId parse.books beh.perBook
      { importedCount := 0, skippedCount := 0, errorCount := 0, errors := [], db := st1 }
    let status := if s.errorCount = parse.books.length then "failed" else "completed"
    if beh.finalLogUpdateThrows then
      systemErrorPath s.db importLogId filepath filename beh.finalLogUpdateErrMsg
        s.importedCount s.skippedCount s.errorCount s.errors beh.failedMoveThrows
    else
      let st2 := updateLogRows s.db importLogId (fun l =>
        { l with
          status
          totalBooks := some parse.books.length
          importedBooks := some s.importedCount
          skippedBooks := some s.skippedCount
          errorCount := some s.errorCount
          completedAt := true })
      if beh.renameThrows then
        systemErrorPath st2 importLogId filepath filename beh.renameErrMsg
          s.importedCount s.skippedCount s.errorCount s.errors beh.failedMoveThrows
      else
        { result := { success := status = "completed"
                      importLogId
                      totalBooks := parse.books.length
                      importedBooks := s.importedCount
                      skippedBooks := s.skippedCount
                      errorCount := s.errorCount
                      errors := if s.errors = [] then none else some s.errors }
          db := st2
          fileMove := if status = "failed" then .toFailed else .toProcessed }

/-- Select an import-log row by id. -/
def getLogRow (st : DbState) (logId : Nat) : Option ImportLogRow :=
  st.importLogs.find? (fun l => l.id = logId)

/-- The text `extractText` yields on a rendered string leaf: `undefined`
for `""`, otherwise the trimmed string. -/
def leafText (s : String) : Option String :=
  if s = "" then none else some (jsTrim s)

/-- The value a rendered string leaf contributes where the extracted
text is additionally tested for truthiness: `undefined` when the
trimmed text is empty. -/
def leafVal (s : String) : Option String :=
  if jsTrim s = "" then none else some (jsTrim s)

/-- A product-identifier node, as a type/value pair of strings. -/
structure IdSpec where
  idType : String
  idValue : String
deriving Repr, DecidableEq

/-- The identifier node in reference tags. -/
def renderIdRef (i : IdSpec) : Xml :=
  .obj [("ProductIDType", .str i.idType), ("IDValue", .str i.idValue)]

/-- The identifier node in short tags. -/
def renderIdShort (i : IdSpec) : Xml :=
  .obj [("b221", .str i.idType), ("b244", .str i.idValue)]

/-- The ISBN-13 contribution of one identifier node: its truthy value
when the type code is `03` or `15`. -/
def qual13 (i : IdSpec) : Option String :=
  match leafVal i.idValue with
  | none => none
  | some v =>
    if leafText i.idType = some "03" ∨ leafText i.idType = some "15" then some v else none

/-- The ISBN-10 contribution of one identifier node: its truthy value
when the type code is `02`. -/
def qual10 (i : IdSpec) : Option String :=
  match leafVal i.idValue with
  | none => none
  | some v => if leafText i.idType = some "02" then some v else none

/-- A subject node, as scheme/code/heading strings. -/
structure SubjSpec where
  scheme : String
  code : String
  heading : String
deriving Repr, DecidableEq

/-- The subject node in reference tags. -/
def renderSubjRef (s : SubjSpec) : Xml :=
  .obj [("SubjectSchemeIdentifier", .str s.scheme), ("SubjectCode", .str s.code),
        ("SubjectHeadingText", .str s.heading)]

/-- The subject node in short tags. -/
def renderSubjShort (s : SubjSpec) : Xml :=
  .obj [("b067", .str s.scheme), ("b069", .str s.code), ("b070", .str s.heading)]

/-- Keyword contribution of one subject node: the split heading when the
scheme is `20` and the heading is truthy. -/
def subjKeywordsOf (s : SubjSpec) : List String :=
  match leafVal s.heading with
  | none => []
  | some t => if leafText s.scheme = some "20" then splitKeywords t else []

/-- Subjects-list contribution of one subject node: its truthy heading
unless the scheme is `20`. -/
def subjTextOf (s : SubjSpec) : Option String :=
  match leafVal s.heading with
  | none => none
  | some t => if leafText s.scheme = some "20" then none else some t

/-- Genre contribution of one subject node: its truthy heading when the
scheme is `12` or `10`. -/
def subjGenreOf (s : SubjSpec) : Option String :=
  match leafVal s.heading with
  | none => none
  | some t =>
    if leafText s.scheme = some "12" ∨ leafText s.scheme = some "10" then some t else none

/-- An extent node, as type/value strings. -/
structure ExtentSpec where
  extType : String
  extValue : String
deriving Repr, DecidableEq

/-- The extent node in reference tags. -/
def renderExtentRef (e : ExtentSpec) : Xml :=
  .obj [("ExtentType", .str e.extType), ("ExtentValue", .str e.extValue)]

/-- The extent node in short tags. -/
def renderExtentShort (e : ExtentSpec) : Xml :=
  .obj [("b218", .str e.extType), ("b219", .str e.extValue)]

def lastOr (xs : List String) (d : Option String) : Option String :=
  match xs.getLast? with
  | some v => some v
  | none => d

/-- First-wins accumulation for the genre. -/
def firstOr (d : Option String) (xs : List String) : Option String :=
  match d with
  | some g => some g
  | none => xs.head?

/-- The `database_error` row `importBook` writes when persistence
throws. -/
def dbErrorRow (logId : Nat) (b : ParsedBook) (msg : String) : ImportErrorRow :=
  { importLogId := logId,
    bookIdentifier := jsStrOr b.isbn13 (jsStrOr b.isbn10 b.recordReference),
    errorType := "database_error",
    errorMessage := msg,
    errorDetails := .bookInfo b.title b.author }

/-- Number of loop records whose persistence succeeds. -/
def countOk : List ParsedBook → List BookBehavior → Nat
  | [], _ => 0
  | _ :: bs, behs => (if (behs.headD {}).persistThrows then 0 else 1) + countOk bs behs.tail

/-- Number of loop records whose persistence throws. -/
def countFail : List ParsedBook → List BookBehavior → Nat
  | [], _ => 0
  | _ :: bs, behs => (if (behs.headD {}).persistThrows then 1 else 0) + countFail bs behs.tail

/-- The `import_errors` rows the loop appends. -/
def loopErrRows (logId : Nat) : List ParsedBook → List BookBehavior → List ImportErrorRow
  | [], _ => []
  | b :: bs, behs =>
    (if (behs.headD {}).persistThrows then [dbErrorRow logId b (behs.headD {}).persistErrMsg] else [])
      ++ loopErrRows logId bs behs.tail

/-- The error messages the loop accumulates. -/
def loopErrMsgs : List ParsedBook → List BookBehavior → List String
  | [], _ => []
  | _ :: bs, behs =>
    (if (behs.headD {}).persistThrows then [(behs.headD {}).persistErrMsg] else [])
      ++ loopErrMsgs bs behs.tail

/-- A text-content node (type code and text). -/
structure TextSpec where
  textType : String
  text : String
deriving Repr, DecidableEq

/-- A supporting-resource node (content type and link). -/
structure ResSpec where
  resType : String
  link : String
deriving Repr, DecidableEq

/-- A contributor node (role code and person name). -/
structure ContribSpec where
  role : String
  name : String
deriving Repr, DecidableEq

/-- The semantic content of one ONIX product.  Scalar fields are plain
strings; an empty string renders to a leaf that the parser treats the
same as an absent element. -/
structure ProductSpec where
  recordReference : String
  titlePfx : String
  titleNoPfx : String
  subtitle : String
  publisher : String
  imprint : String
  pubDateRole : String
  pubDate : String
  priceAmount : String
  currency : String
  productForm : String
  identifiers : List IdSpec
  contributors : List ContribSpec
  texts : List TextSpec
  resources : List ResSpec
  subjects : List SubjSpec
  extents : List ExtentSpec
deriving Repr, DecidableEq

/-- Contributor node in reference tags. -/
def renderContribRef (c : ContribSpec) : Xml :=
  .obj [("ContributorRole", .str c.role), ("PersonName", .str c.name)]

/-- Contributor node in short tags. -/
def renderContribShort (c : ContribSpec) : Xml :=
  .obj [("b035", .str c.role), ("b036", .str c.name)]

/-- Text-content node in reference tags. -/
def renderTextRef (t : TextSpec) : Xml :=
  .obj [("TextType", .str t.textType), ("Text", .str t.text)]

/-- Text-content node in short tags. -/
def renderTextShort (t : TextSpec) : Xml :=
  .obj [("x426", .str t.textType), ("d104", .str t.text)]

/-- Supporting-resource node in reference tags. -/
def renderResRef (r : ResSpec) : Xml :=
  .obj [("ResourceContentType", .str r.resType),
        ("ResourceVersion", .obj [("ResourceLink", .str r.link)])]

/-- Supporting-resource node in short tags. -/
def renderResShort (r : ResSpec) : Xml :=
  .obj [("x436", .str r.resType),
        ("resourceversion", .obj [("x435", .str r.link)])]

/-- `DescriptiveDetail` content in reference tags. -/
def ddRef (p : ProductSpec) : Xml :=
  .obj [
    ("TitleDetail", .obj [("TitleElement", .obj [
      ("TitlePrefix", .str p.titlePfx),
      ("TitleWithoutPrefix", .str p.titleNoPfx),
      ("Subtitle", .str p.subtitle)])]),
    ("Contributor", .arr (p.contributors.map renderContribRef)),
    ("ProductForm", .str p.productForm),
    ("Subject", .arr (p.subjects.map renderSubjRef)),
    ("Extent", .arr (p.extents.map renderExtentRef))]

/-- `CollateralDetail` content in reference tags. -/
def collRef (p : ProductSpec) : Xml :=
  .obj [
    ("TextContent", .arr (p.texts.map renderTextRef)),
    ("SupportingResource", .arr (p.resources.map renderResRef))]

/-- `PublishingDetail` content in reference tags. -/
def pubRef (p : ProductSpec) : Xml :=
  .obj [
    ("Publisher", .obj [("PublisherName", .str p.publisher)]),
    ("Imprint", .obj [("ImprintName", .str p.imprint)]),
    ("PublishingDate", .obj [
      ("PublishingDateRole", .str p.pubDateRole),
      ("Date", .str p.pubDate)])]

/-- `ProductSupply` content in reference tags. -/
def supplyRef (p : ProductSpec) : Xml :=
  .obj [("SupplyDetail", .obj [("Price", .obj [
    ("PriceAmount", .str p.priceAmount),
    ("CurrencyCode", .str p.currency)])])]

/-- One ONIX product in reference tags. -/
def renderRef (p : ProductSpec) : Xml :=
  .obj [
    ("RecordReference", .str p.recordReference),
    ("ProductIdentifier", .arr (p.identifiers.map renderIdRef)),
    ("DescriptiveDetail", ddRef p),
    ("CollateralDetail", collRef p),
    ("PublishingDetail", pubRef p),
    ("ProductSupply", supplyRef p)]

/-- `descriptivedetail` content in short tags. -/
def ddShort (p : ProductSpec) : Xml :=
  .obj [
    ("titledetail", .obj [("titleelement", .obj [
      ("b030", .str p.titlePfx),
      ("b203", .str p.titleNoPfx),
      ("b029", .str p.subtitle)])]),
    ("contributor", .arr (p.contributors.map renderContribShort)),
    ("b012", .str p.productForm),
    ("subject", .arr (p.subjects.map renderSubjShort)),
    ("extent", .arr (p.extents.map renderExtentShort))]

/-- `collateraldetail` content in short tags. -/
def collShort (p : ProductSpec) : Xml :=
  .obj [
    ("textcontent", .arr (p.texts.map renderTextShort)),
    ("supportingresource", .arr (p.resources.map renderResShort))]

/-- `publishingdetail` content in short tags. -/
def pubShort (p : ProductSpec) : Xml :=
  .obj [
    ("publisher", .obj [("b081", .str p.publisher)]),
    ("imprint", .obj [("b079", .str p.imprint)]),
    ("publishingdate", .obj [
      ("x448", .str p.pubDateRole),
      ("b306", .str p.pubDate)])]

/-- `productsupply` content in short tags. -/
def supplyShort (p : ProductSpec) : Xml :=
  .obj [("supplydetail", .obj [("price", .obj [
    ("j151", .str p.priceAmount),
    ("j152", .str p.currency)])])]

/-- The same product in short tags (lowercase composite names, short
data-element codes). -/
def renderShort (p : ProductSpec) : Xml :=
  .obj [
    ("a001", .str p.recordReference),
    ("productidentifier", .arr (p.identifiers.map renderIdShort)),
    ("descriptivedetail", ddShort p),
    ("collateraldetail", collShort p),
    ("publishingdetail", pubShort p),
    ("productsupply", supplyShort p)]

/-- `ddShort` after normalization: data codes mapped, containers kept. -/
def ddShortNorm (p : ProductSpec) : Xml :=
  .obj [
    ("titledetail", .obj [("titleelement", .obj [
      ("TitlePrefix", .str p.titlePfx),
      ("TitleWithoutPrefix", .str p.titleNoPfx),
      ("b029", .str p.subtitle)])]),
    ("contributor", .arr (p.contributors.map renderContribRef)),
    ("ProductForm", .str p.productForm),
    ("subject", .arr (p.subjects.map renderSubjRef)),
    ("extent", .arr (p.extents.map renderExtentRef))]

/-- `collShort` after normalization. -/
def collShortNorm (p : ProductSpec) : Xml :=
  .obj [
    ("textcontent", .arr (p.texts.map renderTextRef)),
    ("supportingresource", .arr (p.resources.map renderResShort))]

/-- `pubShort` after normalization. -/
def pubShortNorm (p : ProductSpec) : Xml :=
  .obj [
    ("publisher", .obj [("PublisherName", .str p.publisher)]),
    ("imprint", .obj [("ImprintName", .str p.imprint)]),
    ("publishingdate", .obj [
      ("PublishingDateRole", .str p.pubDateRole),
      ("Date", .str p.pubDate)])]

/-- `supplyShort` after normalization. -/
def supplyShortNorm (p : ProductSpec) : Xml :=
  .obj [("supplydetail", .obj [("price", .obj [
    ("PriceAmount", .str p.priceAmount),
    ("CurrencyCode", .str p.currency)])])]

/-- `renderShort` after normalization. -/
def renderShortNorm (p : ProductSpec) : Xml :=
  .obj [
    ("RecordReference", .str p.recordReference),
    ("productidentifier", .arr (p.identifiers.map renderIdRef)),
    ("descriptivedetail", ddShortNorm p),
    ("collateraldetail", collShortNorm p),
    ("publishingdetail", pubShortNorm p),
    ("productsupply", supplyShortNorm p)]

theorem extractTextO_jsOr_str (s : String) (b : Option Xml) :
    extractTextO (jsOr (some (.str s)) b) = if s = "" then extractTextO b else some (jsTrim s) := by
  by_cases h : s = "" <;> simp [jsOr, truthy, extractTextO, extractText, h]

theorem extractTextO_jsOr_str_none (s : String) :
    extractTextO (jsOr (some (.str s)) none) = leafText s := by
  rw [extractTextO_jsOr_str]; rfl

theorem leafVal_none_of_leafText_none (s : String) (h : leafText s = none) : leafVal s = none := by
  unfold leafText at h
  by_cases hs : s = ""
  · subst hs; decide
  · simp [hs] at h

theorem leafVal_of_leafText_some (s v : String) (h : leafText s = some v) :
    leafVal s = if v = "" then none else some v := by
  unfold leafText at h
  by_cases hs : s = ""
  · simp [hs] at h
  · simp [hs] at h
    subst h
    unfold leafVal
    rfl

theorem isbnStep_renderIdRef (r : ISBNResult) (i : IdSpec) :
    isbnStep r (renderIdRef i) =
      match qual13 i, qual10 i with
      | some v, _ => { r with isbn13 := some v }
      | none, some v => { r with isbn10 := some v }
      | none, none => r := by
  have e13 : extractTextO (jsOr (getKey (renderIdRef i) "ProductIDType") (getKey (renderIdRef i) "b221"))
      = leafText i.idType := by
    show extractTextO (jsOr (some (.str i.idType)) none) = leafText i.idType
    exact extractTextO_jsOr_str_none _
  have ev : extractTextO (jsOr (getKey (renderIdRef i) "IDValue") (getKey (renderIdRef i) "b244"))
      = leafText i.idValue := by
    show extractTextO (jsOr (some (.str i.idValue)) none) = leafText i.idValue
    exact extractTextO_jsOr_str_none _
  simp only [isbnStep, e13, ev]
  cases hlv : leafText i.idValue with
  | none => simp [qual13, qual10, leafVal_none_of_leafText_none _ hlv]
  | some v =>
    have hq := leafVal_of_leafText_some _ _ hlv
    by_cases hveq : v = ""
    · simp [qual13, qual10, hq, hveq]
    · by_cases h13 : leafText i.idType = some "03" ∨ leafText i.idType = some "15"
      · simp [qual13, qual10, hq, hveq, h13]
      · by_cases h02 : leafText i.idType = some "02"
        · simp [qual13, qual10, hq, hveq, h13, h02]
        · simp [qual13, qual10, hq, hveq, h13, h02]

theorem qual13_disjoint (i : IdSpec) (v : String) (h : qual13 i = some v) : qual10 i = none := by
  unfold qual13 qual10 at *
  cases hv : leafVal i.idValue with
  | none => simp [hv] at h
  | some w =>
    simp [hv] at h ⊢
    rcases h with ⟨h1, h2⟩
    intro h02
    rcases h1 with h3 | h3 <;> rw [h02] at h3 <;> simp at h3

theorem lastOr_cons (x : String) (xs : List String) (d : Option String) :
    lastOr (x :: xs) d = lastOr xs (some x) := by
  unfold lastOr
  cases h : xs.getLast? with
  | none =>
    have : xs = [] := by
      cases xs with
      | nil => rfl
      | cons a l => simp [List.getLast?] at h
    subst this
    rfl
  | some v =>
    cases xs with
    | nil => simp at h
    | cons a l =>
      rw [List.getLast?_cons_cons, h]

theorem isbn_fold_spec (l : List IdSpec) (r : ISBNResult) :
    List.foldl isbnStep r (l.map renderIdRef) =
      { isbn13 := lastOr (l.filterMap qual13) r.isbn13,
        isbn10 := lastOr (l.filterMap qual10) r.isbn10 } := by
  induction l generalizing r with
  | nil => simp [lastOr]
  | cons i l ih =>
    simp only [List.map_cons, List.foldl_cons, List.filterMap_cons]
    rw [isbnStep_renderIdRef]
    cases h13 : qual13 i with
    | some v =>
      have h10 := qual13_disjoint i v h13
      rw [h10, ih]
      simp [lastOr_cons]
    | none =>
      cases h10 : qual10 i with
      | some v => rw [ih]; simp [lastOr_cons]
      | none => rw [ih]

theorem lastOr_none_right (xs : List String) : lastOr xs none = xs.getLast? := by
  unfold lastOr; cases h : xs.getLast? <;> rfl

theorem extractISBN_renders (l : List IdSpec) :
    extractISBN (.arr (l.map renderIdRef)) =
      { isbn13 := (l.filterMap qual13).getLast?,
        isbn10 := (l.filterMap qual10).getLast? } := by
  show List.foldl isbnStep {} (l.map renderIdRef) = _
  rw [isbn_fold_spec]
  simp [lastOr_none_right]

/-- C5 (amended): for every identifier list, `isbn13` is the last truthy
value among nodes with type code `03`/`15`, and it is populated iff such
a node with a truthy value exists; similarly `isbn10` for type `02`. -/
theorem C5_isbn_extraction (l : List IdSpec) :
    (extractISBN (.arr (l.map renderIdRef))).isbn13 = (l.filterMap qual13).getLast? ∧
    (extractISBN (.arr (l.map renderIdRef))).isbn10 = (l.filterMap qual10).getLast? ∧
    ((extractISBN (.arr (l.map renderIdRef))).isbn13 ≠ none ↔ ∃ i ∈ l, qual13 i ≠ none) ∧
    ((extractISBN (.arr (l.map renderIdRef))).isbn10 ≠ none ↔ ∃ i ∈ l, qual10 i ≠ none) := by
  rw [extractISBN_renders]
  refine ⟨rfl, rfl, ?_, ?_⟩
  · constructor
    · intro h
      by_contra hn
      push_neg at hn
      have : l.filterMap qual13 = [] := by
        rw [List.filterMap_eq_nil_iff]
        intro i hi
        by_contra hq
        exact hq (hn i hi)  -- hmm
      simp [this] at h
    · intro ⟨i, hi, hq⟩ h
      have := List.getLast?_eq_none_iff.mp h
      rw [List.filterMap_eq_nil_iff] at this
      exact hq (this i hi)
  · constructor
    · intro h
      by_contra hn
      push_neg at hn
      have : l.filterMap qual10 = [] := by
        rw [List.filterMap_eq_nil_iff]
        exact hn
      simp [this] at h
    · intro ⟨i, hi, hq⟩ h
      have := List.getLast?_eq_none_iff.mp h
      rw [List.filterMap_eq_nil_iff] at this
      exact hq (this i hi)

/-- C5 counterexample: an identifier node with type code `03` but no
truthy value leaves `isbn13` unpopulated. -/
theorem C5_counterexample :
    (extractISBN (.arr (List.map renderIdRef [⟨"03", ""⟩]))).isbn13 = none ∧
    leafText (IdSpec.mk "03" "").idType = some "03" := by decide

theorem subjStep_renderSubjRef (acc : SubjAcc) (s : SubjSpec) :
    subjStep acc (renderSubjRef s) =
      match leafVal s.heading with
      | none => acc
      | some t =>
        if leafText s.scheme = some "20" then
          { acc with keywordTexts := acc.keywordTexts ++ splitKeywords t }
        else
          { acc with
            subjectTexts := acc.subjectTexts ++ [t],
            mainGenre :=
              if acc.mainGenre = none ∧ (leafText s.scheme = some "12" ∨ leafText s.scheme = some "10")
              then some t else acc.mainGenre } := by
  have es : extractTextO (jsOr (getKey (renderSubjRef s) "SubjectSchemeIdentifier") (getKey (renderSubjRef s) "b067"))
      = leafText s.scheme := by
    show extractTextO (jsOr (some (.str s.scheme)) none) = leafText s.scheme
    exact extractTextO_jsOr_str_none _
  have eh : extractTextO (jsOr (getKey (renderSubjRef s) "SubjectHeadingText") (getKey (renderSubjRef s) "b070"))
      = leafText s.heading := by
    show extractTextO (jsOr (some (.str s.heading)) none) = leafText s.heading
    exact extractTextO_jsOr_str_none _
  simp only [subjStep, es, eh]
  cases hlt : leafText s.heading with
  | none => simp [leafVal_none_of_leafText_none _ hlt]
  | some t =>
    have hq := leafVal_of_leafText_some _ _ hlt
    by_cases ht : t = ""
    · simp [hq, ht]
    · by_cases h20 : leafText s.scheme = some "20"
      · simp [hq, ht, h20]
      · simp [hq, ht, h20]

theorem firstOr_nil (d : Option String) : firstOr d [] = d := by cases d <;> rfl

theorem subjTextOf_none (s : SubjSpec) (h : leafVal s.heading = none) : subjTextOf s = none := by
  unfold subjTextOf; rw [h]

theorem subjGenreOf_none (s : SubjSpec) (h : leafVal s.heading = none) : subjGenreOf s = none := by
  unfold subjGenreOf; rw [h]

theorem subjKeywordsOf_none (s : SubjSpec) (h : leafVal s.heading = none) : subjKeywordsOf s = [] := by
  unfold subjKeywordsOf; rw [h]

theorem subj_fold_spec (l : List SubjSpec) (acc : SubjAcc) :
    List.foldl subjStep acc (l.map renderSubjRef) =
      { subjectTexts := acc.subjectTexts ++ l.filterMap subjTextOf,
        keywordTexts := acc.keywordTexts ++ (l.map subjKeywordsOf).flatten,
        mainGenre := firstOr acc.mainGenre (l.filterMap subjGenreOf) } := by
  induction l generalizing acc with
  | nil => simp [firstOr_nil]
  | cons s l ih =>
    simp only [List.map_cons, List.foldl_cons, List.filterMap_cons, List.flatten_cons]
    rw [subjStep_renderSubjRef]
    cases hlv : leafVal s.heading with
    | none =>
      rw [subjTextOf_none s hlv, subjGenreOf_none s hlv, subjKeywordsOf_none s hlv, ih]
      simp
    | some t =>
      by_cases h20 : leafText s.scheme = some "20"
      · have ht : subjTextOf s = none := by simp [subjTextOf, hlv, h20]
        have hg : subjGenreOf s = none := by simp [subjGenreOf, hlv, h20]
        have hk : subjKeywordsOf s = splitKeywords t := by simp [subjKeywordsOf, hlv, h20]
        rw [ht, hg, hk, ih]
        simp [h20]
      · have ht : subjTextOf s = some t := by simp [subjTextOf, hlv, h20]
        have hk : subjKeywordsOf s = [] := by simp [subjKeywordsOf, hlv, h20]
        by_cases hgc : leafText s.scheme = some "12" ∨ leafText s.scheme = some "10"
        · have hg : subjGenreOf s = some t := by simp [subjGenreOf, hlv, hgc]
          rw [ht, hg, hk, ih]
          cases hacc : acc.mainGenre with
          | none => simp [firstOr, h20, hgc, hacc]
          | some g => simp [firstOr, h20, hgc, hacc]
        · have hg : subjGenreOf s = none := by simp [subjGenreOf, hlv, hgc]
          rw [ht, hg, hk, ih]
          cases hacc : acc.mainGenre with
          | none => simp [firstOr, h20, hgc, hacc]
          | some g => simp [firstOr, h20, hgc, hacc]

/-- C6 (amended): scheme-20 subjects feed only keywords; subjects of any
other scheme with truthy heading feed the subjects list; the first
scheme-12/10 heading is the genre. -/
theorem C6_subject_extraction (l : List SubjSpec) :
    extractSubjects (some (.obj [("Subject", .arr (l.map renderSubjRef))])) =
      { genre := (l.filterMap subjGenreOf).head?,
        subjects := if l.filterMap subjTextOf = [] then none else some (l.filterMap subjTextOf),
        keywords := if (l.map subjKeywordsOf).flatten = [] then none
                    else some ((l.map subjKeywordsOf).flatten) } := by
  have h := subj_fold_spec l {}
  unfold extractSubjects
  simp [jsOr, truthy, truthyO, getO, getKey, getFld, h, firstOr]

/-- C6 counterexample: a scheme-20 subject does not accumulate into the
subjects list, only into keywords. -/
theorem C6_counterexample :
    (extractSubjects (some (.obj [("Subject", .arr
        [.obj [("SubjectSchemeIdentifier", Xml.str "20"), ("SubjectHeadingText", Xml.str "fantasy;magic")]])]))).subjects = none ∧
    (extractSubjects (some (.obj [("Subject", .arr
        [.obj [("SubjectSchemeIdentifier", Xml.str "20"), ("SubjectHeadingText", Xml.str "fantasy;magic")]])]))).keywords = some ["fantasy", "magic"] := by
  decide

/-- C7 (amended): page-count extraction inspects only the first extent
node; any following nodes are irrelevant. -/
theorem C7_page_count_first_extent (e : ExtentSpec) (rest : List Xml) :
    extractPageCount (some (.obj [("Extent", .arr (renderExtentRef e :: rest))])) =
      (if leafText e.extType = some "00" ∨ leafText e.extType = some "10" then
        match leafVal e.extValue with
        | some v => some (jsParseInt v)
        | none => none
      else none) := by
  have et : extractTextO (jsOr (getKey (renderExtentRef e) "ExtentType") (getKey (renderExtentRef e) "b218"))
      = leafText e.extType := by
    show extractTextO (jsOr (some (.str e.extType)) none) = leafText e.extType
    exact extractTextO_jsOr_str_none _
  have ev : extractTextO (jsOr (getKey (renderExtentRef e) "ExtentValue") (getKey (renderExtentRef e) "b219"))
      = leafText e.extValue := by
    show extractTextO (jsOr (some (.str e.extValue)) none) = leafText e.extValue
    exact extractTextO_jsOr_str_none _
  show (if extractTextO (jsOr (getKey (renderExtentRef e) "ExtentType") (getKey (renderExtentRef e) "b218")) = some "00"
          ∨ extractTextO (jsOr (getKey (renderExtentRef e) "ExtentType") (getKey (renderExtentRef e) "b218")) = some "10" then
        match extractTextO (jsOr (getKey (renderExtentRef e) "ExtentValue") (getKey (renderExtentRef e) "b219")) with
        | some v => if v = "" then none else some (jsParseInt v)
        | none => none
      else none) = _
  rw [et, ev]
  cases hlv : leafText e.extValue with
  | none =>
    rw [leafVal_none_of_leafText_none _ hlv]
  | some v =>
    rw [leafVal_of_leafText_some _ _ hlv]
    by_cases hv : v = "" <;> simp [hv]

/-- C7 counterexample: a non-qualifying first extent node hides a
qualifying second one. -/
theorem C7_counterexample :
    extractPageCount (some (.obj [("Extent", .arr
        [renderExtentRef ⟨"05", "3"⟩, renderExtentRef ⟨"00", "200"⟩])])) = none ∧
    extractPageCount (some (.obj [("Extent", .arr
        [renderExtentRef ⟨"00", "200"⟩])])) = some (JsNum.num 200) := by
  decide

theorem setKey_not_mem (fs : List (String × Xml)) (k : String) (v : Xml)
    (h : ∀ p ∈ fs, p.1 ≠ k) : setKey fs k v = fs ++ [(k, v)] := by
  induction fs with
  | nil => rfl
  | cons p rest ih =>
    have hp : p.1 ≠ k := h p (by simp)
    cases p with
    | mk k' v' =>
      simp only [setKey]
      rw [if_neg hp]
      simp only [List.cons_append, List.cons.injEq, true_and]
      exact ih (fun q hq => h q (by simp [hq]))

theorem normList_eq_map (l : List Xml) : normList l = l.map normalizeXmlObject := by
  induction l with
  | nil => rfl
  | cons x xs ih => simp only [normList, List.map_cons, ih]

theorem normFields_nodup (fs : List (String × Xml)) (acc : List (String × Xml))
    (hd : (fs.map (fun p => mapTag p.1)).Nodup)
    (hacc : ∀ p ∈ fs, ∀ q ∈ acc, q.1 ≠ mapTag p.1) :
    normFields acc fs = acc ++ fs.map (fun p => (mapTag p.1, normalizeXmlObject p.2)) := by
  induction fs generalizing acc with
  | nil => simp [normFields]
  | cons p rest ih =>
    cases p with
    | mk k v =>
      simp only [normFields]
      rw [setKey_not_mem acc (mapTag k) (normalizeXmlObject v)
        (fun q hq => hacc (k, v) (by simp) q hq)]
      rw [ih (acc ++ [(mapTag k, normalizeXmlObject v)])]
      · simp
      · simp only [List.map_cons] at hd
        exact hd.of_cons
      · intro q hq r hr
        rcases List.mem_append.mp hr with h1 | h1
        · exact hacc q (by simp [hq]) r h1
        · simp at h1
          subst h1
          simp only [List.map_cons, List.nodup_cons] at hd
          intro hcontra
          refine hd.1 ?_
          rw [show mapTag k = mapTag q.1 from hcontra]
          exact List.mem_map_of_mem (fun p => mapTag p.1) hq

/-- C8 (amended). -/
theorem C8_normalize_characterization (s : String) (l : List Xml) (fs : List (String × Xml))
    (h : (fs.map (fun p => mapTag p.1)).Nodup) :
    normalizeXmlObject (.str s) = .str s ∧
    normalizeXmlObject (.arr l) = .arr (l.map normalizeXmlObject) ∧
    normalizeXmlObject (.obj fs) = .obj (fs.map (fun p => (mapTag p.1, normalizeXmlObject p.2))) ∧
    (∀ k, tagLookup ONIX_TAG_MAP (jsToLower k) = none → mapTag k = k) ∧
    (∀ k r, tagLookup ONIX_TAG_MAP (jsToLower k) = some r → mapTag k = r) := by
  refine ⟨rfl, ?_, ?_, ?_, ?_⟩
  · show Xml.arr (normList l) = _
    rw [normList_eq_map]
  · show Xml.obj (normFields [] fs) = _
    rw [normFields_nodup fs [] h (by simp)]
    rfl
  · intro k hk
    unfold mapTag
    rw [hk]
  · intro k r hk
    unfold mapTag
    rw [hk]

/-- C8 witness. -/
theorem C8_normalize_characterization_witness :
    ((([("b221", Xml.str "x"), ("foo", Xml.obj [])]).map (fun p => mapTag p.1)).Nodup) ∧
    normalizeXmlObject (.obj [("b221", Xml.str "x"), ("foo", Xml.obj [])]) =
      .obj [("ProductIDType", Xml.str "x"), ("foo", Xml.obj [])] := by
  constructor
  · decide
  · have h := C8_normalize_characterization "" [] [("b221", Xml.str "x"), ("foo", Xml.obj [])] (by decide)
    exact h.2.2.1

/-- C8 counterexample: two distinct short tags mapping to the same
reference tag collapse into one field, so the tree is not structurally
identical. -/
theorem C8_counterexample :
    normalizeXmlObject (.obj [("b203", .str "A"), ("b031", .str "B")]) =
      .obj [("TitleWithoutPrefix", .str "B")] ∧
    (match normalizeXmlObject (.obj [("b203", .str "A"), ("b031", .str "B")]) with
      | .obj fs => fs.length
      | _ => 0) = 1 ∧
    ([("b203", Xml.str "A"), ("b031", Xml.str "B")] : List (String × Xml)).length = 2 :=
  ⟨rfl, rfl, rfl⟩

theorem importBook_result (b : ParsedBook) (logId : Nat) (bb : BookBehavior) (st : DbState) :
    (importBook b logId bb st).1 =
      { success := !bb.persistThrows, skipped := false,
        error := if bb.persistThrows then some bb.persistErrMsg else none } := by
  unfold importBook
  cases h : bb.persistThrows with
  | true => simp [h]
  | false =>
    simp only [h, if_neg Bool.false_ne_true]
    cases findExistingBook st.books bb.lookupThrows b.isbn13 b.isbn10 b.recordReference <;> rfl

theorem importBook_errors (b : ParsedBook) (logId : Nat) (bb : BookBehavior) (st : DbState) :
    (importBook b logId bb st).2.importErrors =
      st.importErrors ++ (if bb.persistThrows then [dbErrorRow logId b bb.persistErrMsg] else []) := by
  unfold importBook
  cases h : bb.persistThrows with
  | true => simp [h, dbErrorRow]
  | false =>
    simp only [h, if_neg Bool.false_ne_true]
    cases findExistingBook st.books bb.lookupThrows b.isbn13 b.isbn10 b.recordReference with
    | none => simp [insertBook]
    | some row => simp [updateBook]

theorem importBook_logs (b : ParsedBook) (logId : Nat) (bb : BookBehavior) (st : DbState) :
    (importBook b logId bb st).2.importLogs = st.importLogs := by
  unfold importBook
  cases h : bb.persistThrows with
  | true => simp [h]
  | false =>
    simp only [h, if_neg Bool.false_ne_true]
    cases findExistingBook st.books bb.lookupThrows b.isbn13 b.isbn10 b.recordReference with
    | none => simp [insertBook]
    | some row => simp [updateBook]

theorem importLoop_spec (logId : Nat) (bs : List ParsedBook) (behs : List BookBehavior) (s : LoopState) :
    (importLoop logId bs behs s).importedCount = s.importedCount + countOk bs behs ∧
    (importLoop logId bs behs s).skippedCount = s.skippedCount ∧
    (importLoop logId bs behs s).errorCount = s.errorCount + countFail bs behs ∧
    (importLoop logId bs behs s).errors = s.errors ++ loopErrMsgs bs behs ∧
    (importLoop logId bs behs s).db.importErrors = s.db.importErrors ++ loopErrRows logId bs behs ∧
    (importLoop logId bs behs s).db.importLogs = s.db.importLogs := by
  induction bs generalizing behs s with
  | nil => simp [importLoop, countOk, countFail, loopErrMsgs, loopErrRows]
  | cons b bs ih =>
    have hr := importBook_result b logId (behs.headD {}) s.db
    have he := importBook_errors b logId (behs.headD {}) s.db
    have hl := importBook_logs b logId (behs.headD {}) s.db
    simp only [importLoop, hr]
    cases hp : (behs.headD {}).persistThrows with
    | false =>
      simp only [List.headD_eq_head?_getD] at hp he hl
      simp [hp] at he
      simp [hp, countOk, countFail, loopErrMsgs, loopErrRows, ih, he, hl, Nat.add_assoc]
    | true =>
      simp only [List.headD_eq_head?_getD] at hp he hl
      simp [hp] at he
      simp [hp, countOk, countFail, loopErrMsgs, loopErrRows, ih, he, hl, Nat.add_assoc]

theorem getLogRow_fresh (rows : List ImportLogRow) (row : ImportLogRow) (logId : Nat)
    (f : ImportLogRow → ImportLogRow)
    (h : ∀ l ∈ rows, l.id ≠ logId) (hrow : row.id = logId) (hf : (f row).id = row.id) :
    ((rows ++ [row]).map (fun l => if l.id = logId then f l else l)).find? (fun l => l.id = logId)
      = some (f row) := by
  induction rows with
  | nil =>
    simp only [List.nil_append, List.map_cons, List.map_nil, if_pos hrow]
    have : (f row).id = logId := by rw [hf, hrow]
    simp [List.find?, this]
  | cons a rows ih =>
    have ha : a.id ≠ logId := h a (by simp)
    simp only [List.cons_append, List.map_cons, if_neg ha]
    rw [List.find?_cons_of_neg]
    · exact ih (fun l hl => h l (by simp [hl]))
    · simp [ha]

theorem countOk_add_countFail (bs : List ParsedBook) (behs : List BookBehavior) :
    countOk bs behs + countFail bs behs = bs.length := by
  induction bs generalizing behs with
  | nil => simp [countOk, countFail]
  | cons b bs ih =>
    simp only [countOk, countFail, List.length_cons]
    have h := ih behs.tail
    cases hp : (behs.headD {}).persistThrows <;> simp [hp] <;> omega

/-- C9: when the per-record loop runs to completion, the log is
finalized `completed` unless every record failed, equivalently
`completed` iff at least one record imported, with all counters and
`completedAt` set. -/
theorem C9_finalization (parse : ParseOutcome) (filepath filename : String)
    (beh : RunBehavior) (st0 : DbState)
    (hperr : truthyS parse.error = false)
    (hupd : beh.finalLogUpdateThrows = false)
    (hren : beh.renameThrows = false)
    (hfresh : ∀ l ∈ st0.importLogs, l.id ≠ st0.nextLogId) :
    ∃ l, getLogRow (importOnixFile parse filepath filename beh st0).db
           (importOnixFile parse filepath filename beh st0).result.importLogId = some l ∧
      l.status = (if (importOnixFile parse filepath filename beh st0).result.errorCount
                    = parse.books.length then "failed" else "completed") ∧
      (l.status = "completed" ↔ 0 < (importOnixFile parse filepath filename beh st0).result.importedBooks) ∧
      l.totalBooks = some parse.books.length ∧
      l.importedBooks = some (importOnixFile parse filepath filename beh st0).result.importedBooks ∧
      l.skippedBooks = some (importOnixFile parse filepath filename beh st0).result.skippedBooks ∧
      l.errorCount = some (importOnixFile parse filepath filename beh st0).result.errorCount ∧
      l.completedAt = true := by
  unfold importOnixFile
  simp only [hperr, hupd, hren, Bool.false_eq_true, if_false]
  obtain ⟨e1, e2, e3, e4, e5, e6⟩ := importLoop_spec st0.nextLogId parse.books beh.perBook
    { importedCount := 0, skippedCount := 0, errorCount := 0, errors := [],
      db := { books := st0.books,
              importLogs := st0.importLogs ++
                [{ id := st0.nextLogId, filename := filename, filepath := filepath,
                   status := "processing", importSource := detectOnixSource filename,
                   startedAt := true, totalBooks := none, importedBooks := none,
                   skippedBooks := none, errorCount := none, completedAt := false }],
              importErrors := st0.importErrors, nextBookId := st0.nextBookId,
              nextLogId := st0.nextLogId + 1 } }
  simp only [Nat.zero_add] at e1 e3
  unfold getLogRow updateLogRows
  rw [e1, e2, e3, e6]
  refine ⟨_, getLogRow_fresh st0.importLogs _ st0.nextLogId _ hfresh rfl rfl, ?_, ?_, ?_, ?_, ?_, ?_, ?_⟩
  · rfl
  · have hsum := countOk_add_countFail parse.books beh.perBook
    by_cases hc : countFail parse.books beh.perBook = parse.books.length
    · simp only [if_pos hc]
      constructor
      · intro h
        exact absurd h (by decide)
      · intro h
        exfalso
        omega
    · simp only [if_neg hc]
      constructor
      · intro _
        omega
      · intro _
        trivial
  · rfl
  · rfl
  · rfl
  · rfl
  · rfl

/-- C10: on the system_error path the returned result has
`totalBooks = 0` and `success = false`, and the catch-path log update
writes only `status`, `errorCount` and `completedAt`. -/
theorem C10_system_error_path (parse : ParseOutcome) (filepath filename : String)
    (beh : RunBehavior) (st0 : DbState)
    (hperr : truthyS parse.error = false)
    (hcatch : beh.finalLogUpdateThrows = true ∨ beh.renameThrows = true) :
    (importOnixFile parse filepath filename beh st0).result.totalBooks = 0 ∧
    (importOnixFile parse filepath filename beh st0).result.success = false ∧
    (∀ l n, (systemErrorLogUpdate l n).totalBooks = l.totalBooks ∧
            (systemErrorLogUpdate l n).importedBooks = l.importedBooks ∧
            (systemErrorLogUpdate l n).skippedBooks = l.skippedBooks ∧
            (systemErrorLogUpdate l n).status = "failed" ∧
            (systemErrorLogUpdate l n).errorCount = some n ∧
            (systemErrorLogUpdate l n).completedAt = true) := by
  refine ⟨?_, ?_, fun l n => ⟨rfl, rfl, rfl, rfl, rfl, rfl⟩⟩ <;>
  · unfold importOnixFile
    simp only [hperr, Bool.false_eq_true, if_false]
    rcases hcatch with h | h
    · simp [h, systemErrorPath]
    · by_cases h2 : beh.finalLogUpdateThrows
      · simp [h2, systemErrorPath]
      · simp [h2, h, systemErrorPath]

/-- C10 witness: a run that imports two books and then fails at the
rename still returns `totalBooks = 0`, `success = false`, with
`importedBooks = 2 > 0`. -/
theorem C10_system_error_path_witness :
    (importOnixFile
        { books := [{ isbn13 := some "9780000000001" }, { isbn13 := some "9780000000002" }] }
        "/imports/incoming/f.xml" "f.xml" { renameThrows := true } {}).result.totalBooks = 0 ∧
    (importOnixFile
        { books := [{ isbn13 := some "9780000000001" }, { isbn13 := some "9780000000002" }] }
        "/imports/incoming/f.xml" "f.xml" { renameThrows := true } {}).result.success = false ∧
    0 < (importOnixFile
        { books := [{ isbn13 := some "9780000000001" }, { isbn13 := some "9780000000002" }] }
        "/imports/incoming/f.xml" "f.xml" { renameThrows := true } {}).result.importedBooks := by
  have h := C10_system_error_path
    { books := [{ isbn13 := some "9780000000001" }, { isbn13 := some "9780000000002" }] }
    "/imports/incoming/f.xml" "f.xml" { renameThrows := true } {} rfl (Or.inr rfl)
  exact ⟨h.1, h.2.1, by decide⟩

theorem countFail_append (bs1 bs2 : List ParsedBook) (behs1 behs2 : List BookBehavior)
    (h : bs1.length = behs1.length) :
    countFail (bs1 ++ bs2) (behs1 ++ behs2) = countFail bs1 behs1 + countFail bs2 behs2 := by
  induction bs1 generalizing behs1 with
  | nil =>
    cases behs1 with
    | nil => simp [countFail]
    | cons bb behs1 => simp at h
  | cons x xs ih =>
    cases behs1 with
    | nil => simp at h
    | cons bb behs1 =>
      simp only [List.cons_append, countFail, List.headD_cons, List.tail_cons, List.append_eq]
      rw [ih behs1 (by simpa using h)]
      omega

theorem countOk_append (bs1 bs2 : List ParsedBook) (behs1 behs2 : List BookBehavior)
    (h : bs1.length = behs1.length) :
    countOk (bs1 ++ bs2) (behs1 ++ behs2) = countOk bs1 behs1 + countOk bs2 behs2 := by
  induction bs1 generalizing behs1 with
  | nil =>
    cases behs1 with
    | nil => simp [countOk]
    | cons bb behs1 => simp at h
  | cons x xs ih =>
    cases behs1 with
    | nil => simp at h
    | cons bb behs1 =>
      simp only [List.cons_append, countOk, List.headD_cons, List.tail_cons, List.append_eq]
      rw [ih behs1 (by simpa using h)]
      omega

theorem loopErrRows_append (logId : Nat) (bs1 bs2 : List ParsedBook)
    (behs1 behs2 : List BookBehavior) (h : bs1.length = behs1.length) :
    loopErrRows logId (bs1 ++ bs2) (behs1 ++ behs2)
      = loopErrRows logId bs1 behs1 ++ loopErrRows logId bs2 behs2 := by
  induction bs1 generalizing behs1 with
  | nil =>
    cases behs1 with
    | nil => simp [loopErrRows]
    | cons bb behs1 => simp at h
  | cons x xs ih =>
    cases behs1 with
    | nil => simp at h
    | cons bb behs1 =>
      simp only [List.cons_append, loopErrRows, List.headD_cons, List.tail_cons, List.append_eq]
      rw [ih behs1 (by simpa using h)]
      simp

theorem loopErrMsgs_append (bs1 bs2 : List ParsedBook)
    (behs1 behs2 : List BookBehavior) (h : bs1.length = behs1.length) :
    loopErrMsgs (bs1 ++ bs2) (behs1 ++ behs2)
      = loopErrMsgs bs1 behs1 ++ loopErrMsgs bs2 behs2 := by
  induction bs1 generalizing behs1 with
  | nil =>
    cases behs1 with
    | nil => simp [loopErrMsgs]
    | cons bb behs1 => simp at h
  | cons x xs ih =>
    cases behs1 with
    | nil => simp at h
    | cons bb behs1 =>
      simp only [List.cons_append, loopErrMsgs, List.headD_cons, List.tail_cons, List.append_eq]
      rw [ih behs1 (by simpa using h)]
      simp

theorem countFail_default (bs : List ParsedBook) :
    countFail bs (bs.map (fun _ => ({} : BookBehavior))) = 0 := by
  induction bs with
  | nil => simp [countFail]
  | cons b bs ih =>
    simp only [List.map_cons, countFail, List.headD_cons, List.tail_cons, ih]
    rfl

theorem countOk_default (bs : List ParsedBook) :
    countOk bs (bs.map (fun _ => ({} : BookBehavior))) = bs.length := by
  induction bs with
  | nil => simp [countOk]
  | cons b bs ih =>
    simp only [List.map_cons, countOk, List.headD_cons, List.tail_cons, List.length_cons]
    rw [ih]
    simp [Nat.add_comm]

theorem loopErrRows_default (logId : Nat) (bs : List ParsedBook) :
    loopErrRows logId bs (bs.map (fun _ => ({} : BookBehavior))) = [] := by
  induction bs with
  | nil => simp [loopErrRows]
  | cons b bs ih =>
    simp only [List.map_cons, loopErrRows, List.headD_cons, List.tail_cons, ih]
    rfl

theorem loopErrMsgs_default (bs : List ParsedBook) :
    loopErrMsgs bs (bs.map (fun _ => ({} : BookBehavior))) = [] := by
  induction bs with
  | nil => simp [loopErrMsgs]
  | cons b bs ih =>
    simp only [List.map_cons, loopErrMsgs, List.headD_cons, List.tail_cons, ih]
    rfl

theorem updateLogRows_importErrors (st : DbState) (logId : Nat) (f : ImportLogRow → ImportLogRow) :
    (updateLogRows st logId f).importErrors = st.importErrors := rfl

/-- C3 (amended): a persistence failure on one record is isolated. -/
theorem C3_persistence_error_isolation
    (bs1 bs2 : List ParsedBook) (b : ParsedBook) (msg : String)
    (filepath filename : String) (st0 : DbState)
    (parse : ParseOutcome) (beh : RunBehavior)
    (hparse : parse = { books := bs1 ++ b :: bs2 })
    (hbeh : beh = { perBook := bs1.map (fun _ => ({} : BookBehavior)) ++
        ({ persistThrows := true, persistErrMsg := msg } :: bs2.map (fun _ => ({} : BookBehavior))) })
    (hne : 1 ≤ bs1.length + bs2.length)
    (hfresh : ∀ l ∈ st0.importLogs, l.id ≠ st0.nextLogId) :
    (importOnixFile parse filepath filename beh st0).result.importedBooks = bs1.length + bs2.length ∧
    (importOnixFile parse filepath filename beh st0).result.errorCount = 1 ∧
    (importOnixFile parse filepath filename beh st0).result.importedBooks
      + (importOnixFile parse filepath filename beh st0).result.errorCount
      = parse.books.length ∧
    (importOnixFile parse filepath filename beh st0).db.importErrors
      = st0.importErrors ++ [dbErrorRow st0.nextLogId b msg] ∧
    (importOnixFile parse filepath filename beh st0).result.errors = some [msg] ∧
    (∃ l, getLogRow (importOnixFile parse filepath filename beh st0).db
          (importOnixFile parse filepath filename beh st0).result.importLogId = some l ∧
        l.status = "completed") := by
  have hlen : bs1.length = (bs1.map (fun _ => ({} : BookBehavior))).length := by simp
  have hcf : countFail (bs1 ++ b :: bs2) (bs1.map (fun _ => ({} : BookBehavior)) ++
      ({ persistThrows := true, persistErrMsg := msg } :: bs2.map (fun _ => ({} : BookBehavior)))) = 1 := by
    rw [countFail_append _ _ _ _ hlen, countFail_default]
    simp only [countFail, List.headD_cons, List.tail_cons]
    rw [countFail_default]
    simp
  have hco : countOk (bs1 ++ b :: bs2) (bs1.map (fun _ => ({} : BookBehavior)) ++
      ({ persistThrows := true, persistErrMsg := msg } :: bs2.map (fun _ => ({} : BookBehavior)))) = bs1.length + bs2.length := by
    rw [countOk_append _ _ _ _ hlen, countOk_default]
    simp only [countOk, List.headD_cons, List.tail_cons]
    rw [countOk_default]
    simp
  have hrows : loopErrRows st0.nextLogId (bs1 ++ b :: bs2) (bs1.map (fun _ => ({} : BookBehavior)) ++
      ({ persistThrows := true, persistErrMsg := msg } :: bs2.map (fun _ => ({} : BookBehavior)))) = [dbErrorRow st0.nextLogId b msg] := by
    rw [loopErrRows_append _ _ _ _ _ hlen, loopErrRows_default]
    simp only [loopErrRows, List.headD_cons, List.tail_cons]
    rw [loopErrRows_default]
    simp
  have hmsgs : loopErrMsgs (bs1 ++ b :: bs2) (bs1.map (fun _ => ({} : BookBehavior)) ++
      ({ persistThrows := true, persistErrMsg := msg } :: bs2.map (fun _ => ({} : BookBehavior)))) = [msg] := by
    rw [loopErrMsgs_append _ _ _ _ hlen, loopErrMsgs_default]
    simp only [loopErrMsgs, List.headD_cons, List.tail_cons]
    rw [loopErrMsgs_default]
    simp
  subst hparse hbeh
  unfold importOnixFile
  simp only [truthyS, Bool.false_eq_true, if_false]
  obtain ⟨e1, e2, e3, e4, e5, e6⟩ := importLoop_spec st0.nextLogId (bs1 ++ b :: bs2)
    (bs1.map (fun _ => ({} : BookBehavior)) ++
      ({ persistThrows := true, persistErrMsg := msg } :: bs2.map (fun _ => ({} : BookBehavior))))
    { importedCount := 0, skippedCount := 0, errorCount := 0, errors := [],
      db := { books := st0.books,
              importLogs := st0.importLogs ++
                [{ id := st0.nextLogId, filename := filename, filepath := filepath,
                   status := "processing", importSource := detectOnixSource filename,
                   startedAt := true, totalBooks := none, importedBooks := none,
                   skippedBooks := none, errorCount := none, completedAt := false }],
              importErrors := st0.importErrors, nextBookId := st0.nextBookId,
              nextLogId := st0.nextLogId + 1 } }
  simp only [Nat.zero_add, List.nil_append] at e1 e3 e4
  refine ⟨?_, ?_, ?_, ?_, ?_, ?_⟩
  · rw [e1, hco]
  · rw [e3, hcf]
  · rw [e1, e3, hco, hcf]
    simp [List.length_append]
    omega
  · rw [updateLogRows_importErrors, e5, hrows]
  · rw [e4, hmsgs]
    simp
  · unfold getLogRow updateLogRows
    rw [e6]
    refine ⟨_, getLogRow_fresh st0.importLogs _ st0.nextLogId _ hfresh rfl rfl, ?_⟩
    simp only [e3, hcf]
    rw [if_neg]
    simp only [List.length_append, List.length_cons]
    omega

/-- C3 witness: two books, the second one's persistence fails. -/
theorem C3_persistence_error_isolation_witness :
    (importOnixFile
        { books := [({ isbn13 := some "9780000000001" } : ParsedBook)] ++
            ({ isbn13 := some "9780000000002" } : ParsedBook) :: [] }
        "/imports/incoming/f.xml" "f.xml"
        { perBook := [({ isbn13 := some "9780000000001" } : ParsedBook)].map (fun _ => ({} : BookBehavior)) ++
            ({ persistThrows := true, persistErrMsg := "boom" } ::
              ([] : List ParsedBook).map (fun _ => ({} : BookBehavior))) }
        {}).result.importedBooks = 1 ∧
    (importOnixFile
        { books := [({ isbn13 := some "9780000000001" } : ParsedBook)] ++
            ({ isbn13 := some "9780000000002" } : ParsedBook) :: [] }
        "/imports/incoming/f.xml" "f.xml"
        { perBook := [({ isbn13 := some "9780000000001" } : ParsedBook)].map (fun _ => ({} : BookBehavior)) ++
            ({ persistThrows := true, persistErrMsg := "boom" } ::
              ([] : List ParsedBook).map (fun _ => ({} : BookBehavior))) }
        {}).result.errorCount = 1 ∧
    (importOnixFile
        { books := [({ isbn13 := some "9780000000001" } : ParsedBook)] ++
            ({ isbn13 := some "9780000000002" } : ParsedBook) :: [] }
        "/imports/incoming/f.xml" "f.xml"
        { perBook := [({ isbn13 := some "9780000000001" } : ParsedBook)].map (fun _ => ({} : BookBehavior)) ++
            ({ persistThrows := true, persistErrMsg := "boom" } ::
              ([] : List ParsedBook).map (fun _ => ({} : BookBehavior))) }
        {}).result.errors = some ["boom"] := by
  have h := C3_persistence_error_isolation
    [({ isbn13 := some "9780000000001" } : ParsedBook)] []
    ({ isbn13 := some "9780000000002" } : ParsedBook) "boom"
    "/imports/incoming/f.xml" "f.xml" {} _ _ rfl rfl (by decide)
    (fun l hl => by simp at hl)
  refine ⟨?_, h.2.1, h.2.2.2.2.1⟩
  simpa using h.1

/-- C3 counterexample: an exception in the identity lookup is swallowed
inside `findExistingBook`; no `database_error` row is recorded, the
record is not counted as an error, and it is imported (inserted). -/
theorem C3_counterexample :
    (importOnixFile
        { books := [({ isbn13 := some "9780000000001", title := some "T", author := some "A" } : ParsedBook)] }
        "/imports/incoming/f.xml" "f.xml"
        { perBook := [{ lookupThrows := true }] } {}).db.importErrors = [] ∧
    (importOnixFile
        { books := [({ isbn13 := some "9780000000001", title := some "T", author := some "A" } : ParsedBook)] }
        "/imports/incoming/f.xml" "f.xml"
        { perBook := [{ lookupThrows := true }] } {}).result.errorCount = 0 ∧
    (importOnixFile
        { books := [({ isbn13 := some "9780000000001", title := some "T", author := some "A" } : ParsedBook)] }
        "/imports/incoming/f.xml" "f.xml"
        { perBook := [{ lookupThrows := true }] } {}).result.importedBooks = 1 := by
  decide

/-- C1: importing the same single-product file twice.  The second run
finds the existing row and takes the update path, which returns
`skipped: false`, so the loop counts the record as imported again:
`importedBooks = 1`, not `0`, and `skippedBooks` stays `0`.  The catalog
still holds a single row, which was updated in place. -/
theorem C1_reimport_counts_update_as_imported :
    (importOnixFile
        { books := [({ isbn13 := some "9780000000001", title := some "T", author := some "A" } : ParsedBook)] }
        "/imports/incoming/books.xml" "books.xml" {}
        (importOnixFile
          { books := [({ isbn13 := some "9780000000001", title := some "T", author := some "A" } : ParsedBook)] }
          "/imports/incoming/books.xml" "books.xml" {} {}).db).result.importedBooks = 1 ∧
    (importOnixFile
        { books := [({ isbn13 := some "9780000000001", title := some "T", author := some "A" } : ParsedBook)] }
        "/imports/incoming/books.xml" "books.xml" {}
        (importOnixFile
          { books := [({ isbn13 := some "9780000000001", title := some "T", author := some "A" } : ParsedBook)] }
          "/imports/incoming/books.xml" "books.xml" {} {}).db).result.skippedBooks = 0 ∧
    (importOnixFile
        { books := [({ isbn13 := some "9780000000001", title := some "T", author := some "A" } : ParsedBook)] }
        "/imports/incoming/books.xml" "books.xml" {}
        (importOnixFile
          { books := [({ isbn13 := some "9780000000001", title := some "T", author := some "A" } : ParsedBook)] }
          "/imports/incoming/books.xml" "books.xml" {} {}).db).db.books.length = 1 ∧
    (importOnixFile
        { books := [({ isbn13 := some "9780000000001", title := some "T", author := some "A" } : ParsedBook)] }
        "/imports/incoming/books.xml" "books.xml" {} {}).result.importedBooks = 1 := by
  decide

/-- C2: on a file-level parse error, `importOnixFile` records one
`parse_error` row, finalizes the log failed with `errorCount = 1`, runs
no per-book loop, returns a zero-counts failure result — but the early
return skips the rename, so the file never leaves `incoming`
(`fileMove = stay`, not `toFailed`). -/
theorem C2_parse_error_leaves_file_in_incoming :
    (importOnixFile { books := [], error := some "Invalid ONIX format: root element not found" }
        "/imports/incoming/bad.xml" "bad.xml" {} {}).db.importErrors =
      [{ importLogId := 0, bookIdentifier := none, errorType := "parse_error",
         errorMessage := "Invalid ONIX format: root element not found",
         errorDetails := .fileInfo "/imports/incoming/bad.xml" "bad.xml" }] ∧
    getLogRow (importOnixFile { books := [], error := some "Invalid ONIX format: root element not found" }
        "/imports/incoming/bad.xml" "bad.xml" {} {}).db 0 =
      some { id := 0, filename := "bad.xml", filepath := "/imports/incoming/bad.xml",
             status := "failed", importSource := "Unknown", startedAt := true,
             totalBooks := none, importedBooks := none, skippedBooks := none,
             errorCount := some 1, completedAt := true } ∧
    (importOnixFile { books := [], error := some "Invalid ONIX format: root element not found" }
        "/imports/incoming/bad.xml" "bad.xml" {} {}).result =
      { success := false, importLogId := 0, totalBooks := 0, importedBooks := 0,
        skippedBooks := 0, errorCount := 1,
        errors := some ["Invalid ONIX format: root element not found"] } ∧
    (importOnixFile { books := [], error := some "Invalid ONIX format: root element not found" }
        "/imports/incoming/bad.xml" "bad.xml" {} {}).db.books = [] ∧
    (importOnixFile { books := [], error := some "Invalid ONIX format: root element not found" }
        "/imports/incoming/bad.xml" "bad.xml" {} {}).fileMove = FileMove.stay := by
  decide

theorem normIdRef_eq (i : IdSpec) : normalizeXmlObject (renderIdRef i) = renderIdRef i := rfl

theorem normIdShort_eq (i : IdSpec) : normalizeXmlObject (renderIdShort i) = renderIdRef i := rfl

theorem normContribRef_eq (c : ContribSpec) :
    normalizeXmlObject (renderContribRef c) = renderContribRef c := rfl

theorem normContribShort_eq (c : ContribSpec) :
    normalizeXmlObject (renderContribShort c) = renderContribRef c := rfl

theorem normSubjRef_eq (s : SubjSpec) : normalizeXmlObject (renderSubjRef s) = renderSubjRef s := rfl

theorem normSubjShort_eq (s : SubjSpec) : normalizeXmlObject (renderSubjShort s) = renderSubjRef s := rfl

theorem normExtRef_eq (e : ExtentSpec) :
    normalizeXmlObject (renderExtentRef e) = renderExtentRef e := rfl

theorem normExtShort_eq (e : ExtentSpec) :
    normalizeXmlObject (renderExtentShort e) = renderExtentRef e := rfl

theorem normTextRef_eq (t : TextSpec) : normalizeXmlObject (renderTextRef t) = renderTextRef t := rfl

theorem normTextShort_eq (t : TextSpec) : normalizeXmlObject (renderTextShort t) = renderTextRef t := rfl

theorem normResRef_eq (r : ResSpec) : normalizeXmlObject (renderResRef r) = renderResRef r := rfl

theorem normResShort_eq (r : ResSpec) : normalizeXmlObject (renderResShort r) = renderResShort r := rfl

theorem normList_map_eq {A : Type} (f g : A → Xml) (h : ∀ a, normalizeXmlObject (f a) = g a)
    (l : List A) : normList (l.map f) = l.map g := by
  induction l with
  | nil => rfl
  | cons a l ih => simp only [List.map_cons, normList, h, ih]

theorem normArrMap {A : Type} (f g : A → Xml) (h : ∀ a, normalizeXmlObject (f a) = g a)
    (l : List A) : normalizeXmlObject (.arr (l.map f)) = .arr (l.map g) := by
  show Xml.arr (normList _) = _
  rw [normList_map_eq f g h]

theorem normDDRef_eq (p : ProductSpec) : normalizeXmlObject (ddRef p) = ddRef p := by
  show Xml.obj (normFields [] _) = _
  rw [normFields_nodup _ _ (by simp only [List.map_cons, List.map_nil]; decide)
    (fun a _ q hq => absurd hq (List.not_mem_nil q))]
  simp only [List.nil_append, List.map_cons, List.map_nil]
  rw [normArrMap _ _ normContribRef_eq p.contributors,
      normArrMap _ _ normSubjRef_eq p.subjects,
      normArrMap _ _ normExtRef_eq p.extents]
  rfl

theorem normCollRef_eq (p : ProductSpec) : normalizeXmlObject (collRef p) = collRef p := by
  show Xml.obj (normFields [] _) = _
  rw [normFields_nodup _ _ (by simp only [List.map_cons, List.map_nil]; decide)
    (fun a _ q hq => absurd hq (List.not_mem_nil q))]
  simp only [List.nil_append, List.map_cons, List.map_nil]
  rw [normArrMap _ _ normTextRef_eq p.texts,
      normArrMap _ _ normResRef_eq p.resources]
  rfl

theorem normPubRef_eq (p : ProductSpec) : normalizeXmlObject (pubRef p) = pubRef p := rfl

theorem normSupplyRef_eq (p : ProductSpec) : normalizeXmlObject (supplyRef p) = supplyRef p := rfl

theorem normRef_eq (p : ProductSpec) : normalizeXmlObject (renderRef p) = renderRef p := by
  show Xml.obj (normFields [] _) = _
  rw [normFields_nodup _ _ (by simp only [List.map_cons, List.map_nil]; decide)
    (fun a _ q hq => absurd hq (List.not_mem_nil q))]
  simp only [List.nil_append, List.map_cons, List.map_nil]
  rw [normArrMap _ _ normIdRef_eq p.identifiers,
      normDDRef_eq, normCollRef_eq, normPubRef_eq, normSupplyRef_eq]
  rfl

theorem normDDShort_eq (p : ProductSpec) : normalizeXmlObject (ddShort p) = ddShortNorm p := by
  show Xml.obj (normFields [] _) = _
  rw [normFields_nodup _ _ (by simp only [List.map_cons, List.map_nil]; decide)
    (fun a _ q hq => absurd hq (List.not_mem_nil q))]
  simp only [List.nil_append, List.map_cons, List.map_nil]
  rw [normArrMap _ _ normContribShort_eq p.contributors,
      normArrMap _ _ normSubjShort_eq p.subjects,
      normArrMap _ _ normExtShort_eq p.extents]
  rfl

theorem normCollShort_eq (p : ProductSpec) : normalizeXmlObject (collShort p) = collShortNorm p := by
  show Xml.obj (normFields [] _) = _
  rw [normFields_nodup _ _ (by simp only [List.map_cons, List.map_nil]; decide)
    (fun a _ q hq => absurd hq (List.not_mem_nil q))]
  simp only [List.nil_append, List.map_cons, List.map_nil]
  rw [normArrMap _ _ normTextShort_eq p.texts,
      normArrMap _ _ normResShort_eq p.resources]
  rfl

theorem normPubShort_eq (p : ProductSpec) : normalizeXmlObject (pubShort p) = pubShortNorm p := rfl

theorem normSupplyShort_eq (p : ProductSpec) :
    normalizeXmlObject (supplyShort p) = supplyShortNorm p := rfl

theorem normShort_eq (p : ProductSpec) : normalizeXmlObject (renderShort p) = renderShortNorm p := by
  show Xml.obj (normFields [] _) = _
  rw [normFields_nodup _ _ (by simp only [List.map_cons, List.map_nil]; decide)
    (fun a _ q hq => absurd hq (List.not_mem_nil q))]
  simp only [List.nil_append, List.map_cons, List.map_nil]
  rw [normArrMap _ _ normIdShort_eq p.identifiers,
      normDDShort_eq, normCollShort_eq, normPubShort_eq, normSupplyShort_eq]
  rfl

theorem extractTitle_short_ref (a b c : String) :
    extractTitle (some (.obj [("titleelement", .obj [
      ("TitlePrefix", .str a), ("TitleWithoutPrefix", .str b), ("b029", .str c)])])) =
    extractTitle (some (.obj [("TitleElement", .obj [
      ("TitlePrefix", .str a), ("TitleWithoutPrefix", .str b), ("Subtitle", .str c)])])) := by
  by_cases hc : c = "" <;>
    simp [extractTitle, truthyO, truthy, getO, getKey, getFld, jsOr, extractTextO, extractText, hc]

theorem coverLoop_short_ref (l : List ResSpec) :
    coverLoop (l.map renderResShort) = coverLoop (l.map renderResRef) := by
  induction l with
  | nil => rfl
  | cons r l ih =>
    by_cases ht : r.resType = "" <;> by_cases hl : r.link = "" <;>
      simp [coverLoop, renderResShort, renderResRef, truthyO, truthy, getO, getKey, getFld,
        jsOr, extractTextO, extractText, ht, hl, ih]

theorem parseProduct_short_eq (p : ProductSpec) :
    parseProduct (renderShort p) =
      { parseProduct (renderRef p) with
        publisher := none, imprint := none, productForm := none } := by
  simp only [parseProduct]
  rw [normShort_eq, normRef_eq]
  have ht : extractTitle (jsOr (getO (getKey (renderShortNorm p) "DescriptiveDetail") "TitleDetail")
      (getO (getKey (renderShortNorm p) "descriptivedetail") "titledetail")) =
    extractTitle (jsOr (getO (getKey (renderRef p) "DescriptiveDetail") "TitleDetail")
      (getO (getKey (renderRef p) "descriptivedetail") "titledetail")) := by
    exact extractTitle_short_ref p.titlePfx p.titleNoPfx p.subtitle
  have hcov : extractCoverImage (jsOr (getKey (renderShortNorm p) "CollateralDetail")
      (getKey (renderShortNorm p) "collateraldetail")) =
    extractCoverImage (jsOr (getKey (renderRef p) "CollateralDetail")
      (getKey (renderRef p) "collateraldetail")) := by
    show coverLoop (p.resources.map renderResShort) = coverLoop (p.resources.map renderResRef)
    exact coverLoop_short_ref p.resources
  rw [ht, hcov]
  rfl

/-- C4 (amended): a short-tag file parses identically to its
reference-tag equivalent except that `publisher`, `imprint` and
`productForm` are lost (always absent) in the short-tag parse. -/
theorem C4_short_reference_tags (ps : List ProductSpec) :
    (ps.map renderShort).map parseProduct =
      ((ps.map renderRef).map parseProduct).map
        (fun pb => { pb with publisher := none, imprint := none, productForm := none }) := by
  induction ps with
  | nil => rfl
  | cons p ps ih =>
    simp only [List.map_cons] at ih ⊢
    rw [parseProduct_short_eq, ih]

/-- C4 counterexample: the same product with a publisher, in reference
and in short tags, parses to different `ParsedBook`s. -/
theorem C4_counterexample :
    (parseProduct (renderRef ⟨"rr", "", "Book", "", "Pub", "", "", "", "", "", "", [], [], [], [], [], []⟩)).publisher = some "Pub" ∧
    (parseProduct (renderShort ⟨"rr", "", "Book", "", "Pub", "", "", "", "", "", "", [], [], [], [], [], []⟩)).publisher = none ∧
    parseProduct (renderShort ⟨"rr", "", "Book", "", "Pub", "", "", "", "", "", "", [], [], [], [], [], []⟩) ≠
      parseProduct (renderRef ⟨"rr", "", "Book", "", "Pub", "", "", "", "", "", "", [], [], [], [], [], []⟩) := by
  decide

/-- C9 witness: a one-book no-failure run has a retrievable finalized
log row. -/
theorem C9_finalization_witness :
    (getLogRow (importOnixFile { books := [({ isbn13 := some "9780000000001" } : ParsedBook)] }
        "/imports/incoming/f.xml" "f.xml" {} {}).db
      (importOnixFile { books := [({ isbn13 := some "9780000000001" } : ParsedBook)] }
        "/imports/incoming/f.xml" "f.xml" {} {}).result.importLogId).isSome = true := by
  obtain ⟨l, hl, -⟩ := C9_finalization
    { books := [({ isbn13 := some "9780000000001" } : ParsedBook)] }
    "/imports/incoming/f.xml" "f.xml" {} {} rfl rfl rfl (fun l hl => by simp at hl)
  rw [hl]
  rfl
